import Mathlib

/-!
DHI screening front end (`static/script.js`): progress monitor, batch submission, uploads,
filter builder, result presenter, lifecycle signal, connection probe, startup and file selection

A shallow embedding of the parts of `static/script.js` that the specification talks about.

Conventions of the embedding

* A JavaScript property that may be missing is an `Option`; `none` stands for `undefined`.
  A JSON `null` is not modelled.
* Truthiness follows JavaScript: a string is truthy iff it is non-empty, a timer handle
  (a number) is truthy iff it is non-zero, `undefined` is falsy.
* Numbers sent by the server are integers (`Int`); a template literal prints an integer-valued
  number as its decimal digits.  Computed numbers are `JSNum`: `NaN`, the infinities, or an exact
  fraction (the rounding of 64-bit floats is not modelled).
* The page elements that the script looks up under a fixed id (`loadingText`, `loadingTimeInfo`,
  `resultInfo`, `downloadArea`, `downloadBtn`, the mandatory form inputs) belong to the page's
  HTML, which is not part of the script: they are taken to exist.  Elements looked up under a
  computed id (`enable_<field>`, `min_<field>`, `max_<field>`) may be missing.
  The element `loading-status`, which the script creates and removes itself, exists only
  between the two.
* A delay is modelled by the order of events (a timer is pending until it fires); only the
  lifecycle signal carries clock times, in milliseconds.
* Asynchronous code is split at its `await`s: the synchronous part of a call is one function on
  the state, the continuation that runs when the awaited request settles is another.
-/

namespace DhiScreening

/-! ## JavaScript helpers -/

/-- Truthiness of a string-valued property: present and non-empty. -/
def truthyStr : Option String → Bool
  | some s => decide (s ≠ "")
  | none => false

/-- The value of `x || d` for a string-valued property `x`. -/
def orDefault : Option String → String → String
  | some s, d => if s = "" then d else s
  | none, d => d

/-- The test `s.includes(t)`: `t` occurs in `s` as a contiguous block. -/
def includes (s t : String) : Bool :=
  s.data.tails.any (fun u => t.data.isPrefixOf u)

/-- The test `s.startsWith(t)`. -/
def startsWith (s t : String) : Bool := t.data.isPrefixOf s.data

/-- The test `s.endsWith(t)`. -/
def endsWith (s t : String) : Bool := t.data.isSuffixOf s.data

/-! ## Progress snapshot and its rendering (`updateProgressDisplay`, lines 288-313) -/

/-- The body of a `/api/processing-progress` response. -/
structure ProgressSnapshot where
  is_processing : Bool
  current_step : Option String
  current_file : Option String
  progress_percentage : Option Int
  elapsed_time_formatted : Option String
  remaining_time_formatted : Option String
  deriving DecidableEq, Repr

/-- The delimiter put between the parts of the time line. -/
def delimiter : String := " | "

/-- Lines 293-296: the main status text. -/
def mainText (p : ProgressSnapshot) : String :=
  let mainText := orDefault p.current_step "初始化"
  if truthyStr p.current_file then mainText ++ " - " ++ p.current_file.getD "" else mainText

/-- Line 302: the elapsed-time part. -/
def elapsedPart (p : ProgressSnapshot) : String :=
  "已用时: " ++ p.elapsed_time_formatted.getD ""

/-- Line 306: the remaining-time part. -/
def remainingPart (p : ProgressSnapshot) : String :=
  "预计剩余: " ++ p.remaining_time_formatted.getD ""

/-- Line 310: the percentage part. -/
def percentagePart (n : Int) : String :=
  "进度: " ++ toString n ++ "%"

/-- Lines 301-303: the elapsed-time part is appended when the property is truthy. -/
def addElapsed (p : ProgressSnapshot) (timeInfo : String) : String :=
  if truthyStr p.elapsed_time_formatted then timeInfo ++ elapsedPart p else timeInfo

/-- Lines 304-307: the remaining-time part, after a delimiter when something precedes it. -/
def addRemaining (p : ProgressSnapshot) (timeInfo : String) : String :=
  if truthyStr p.remaining_time_formatted then
    (if timeInfo ≠ "" then timeInfo ++ delimiter else timeInfo) ++ remainingPart p
  else timeInfo

/-- Lines 308-311: the percentage part, appended when the property is not `undefined`. -/
def addPercentage (p : ProgressSnapshot) (timeInfo : String) : String :=
  match p.progress_percentage with
  | some n => (if timeInfo ≠ "" then timeInfo ++ delimiter else timeInfo) ++ percentagePart n
  | none => timeInfo

/-- Lines 300-311: the time/percentage line. -/
def timeInfo (p : ProgressSnapshot) : String :=
  addPercentage p (addRemaining p (addElapsed p ""))

/-- The parts of the time line that the snapshot provides, in the order elapsed, remaining,
percentage: a time text counts when it is truthy (non-empty), the percentage when it is not
`undefined`. -/
def presentParts (p : ProgressSnapshot) : List String :=
  (if truthyStr p.elapsed_time_formatted then [elapsedPart p] else [])
  ++ (if truthyStr p.remaining_time_formatted then [remainingPart p] else [])
  ++ (match p.progress_percentage with
      | some n => [percentagePart n]
      | none => [])

/-! ## The progress monitor (lines 8, 250-353) -/

/-- The monitor's variables, the two text elements it writes, and the part of the browser's timer
table it uses.  Every call of `startGlobalProgressMonitoring` creates one closure with its own
`retryCount` and exactly one interval that runs this closure: the closure is named by the id of
that interval. -/
structure MonitorState where
  /-- Line 8: `null` or the handle returned by `setInterval`. -/
  globalProgressInterval : Option Nat
  /-- Browser: the id the next `setInterval`/`setTimeout` returns. -/
  nextTimerId : Nat
  /-- Browser: the recurring poll intervals that were created and not yet cleared. -/
  intervals : List Nat
  /-- The progress requests that were sent and have not settled, by closure. -/
  inFlight : List Nat
  /-- Line 271: the `retryCount` of each closure. -/
  retryCount : Nat → Nat
  /-- The `textContent` of the element `loadingText`. -/
  loadingText : String
  /-- The `textContent` of the element `loadingTimeInfo`. -/
  loadingTimeInfo : String

/-- The state when the script is loaded: no handle, no interval; timer ids are positive. -/
def MonitorState.initial (text time : String) : MonitorState where
  globalProgressInterval := none
  nextTimerId := 1
  intervals := []
  inFlight := []
  retryCount := fun _ => 0
  loadingText := text
  loadingTimeInfo := time

/-- Browser: `clearInterval(id)`. -/
def clearInterval (id : Nat) (s : MonitorState) : MonitorState :=
  { s with intervals := s.intervals.filter (fun i => decide (i ≠ id)) }

/-- Browser: `setInterval(updateProgressDisplay, 1000)`, returning the fresh id. -/
def setInterval (s : MonitorState) : Nat × MonitorState :=
  (s.nextTimerId, { s with intervals := s.nextTimerId :: s.intervals,
                           nextTimerId := s.nextTimerId + 1 })

/-- Lines 345-353: `stopGlobalProgressMonitoring`.  The texts are not reset. -/
def stopGlobalProgressMonitoring (s : MonitorState) : MonitorState :=
  match s.globalProgressInterval with
  | some h =>
    if h ≠ 0 then { clearInterval h s with globalProgressInterval := none } else s
  | none => s

/-- Lines 250-271: the synchronous part of `startGlobalProgressMonitoring`: clear the old
interval, send the first progress request (line 261, up to its `await`), create the new interval
and the closure's counter.  The timeout of line 264 only logs and is left out. -/
def startGlobalProgressMonitoring (s : MonitorState) : MonitorState :=
  let s1 := match s.globalProgressInterval with
    | some h => if h ≠ 0 then clearInterval h s else s
    | none => s
  let s2 := { s1 with inFlight := s1.inFlight ++ [s1.nextTimerId] }
  let (id, s3) := setInterval s2
  { s3 with globalProgressInterval := some id,
            retryCount := Function.update s3.retryCount id 0 }

/-- How a progress request settles: `fetch` or `response.json()` rejects, or a snapshot arrives. -/
inductive PollOutcome
  | failed
  | snapshot (p : ProgressSnapshot)
  deriving DecidableEq, Repr

/-- The generic text shown after repeated failures (line 337). -/
def fallbackText : String := "正在处理，获取进度信息中..."

/-- The time line shown with the generic text (line 338). -/
def fallbackTimeInfo : String := "连接后端服务..."

/-- Lines 325-340: the `catch` block of `updateProgressDisplay` in the closure `run`. -/
def pollFailed (run : Nat) (s : MonitorState) : MonitorState :=
  let s1 := { s with retryCount := Function.update s.retryCount run (s.retryCount run + 1) }
  if s1.retryCount run ≤ 3 then s1
  else if !(includes s1.loadingText "获取进度信息") then
    { s1 with loadingText := fallbackText, loadingTimeInfo := fallbackTimeInfo }
  else s1

/-- Lines 277-340: the continuation of `updateProgressDisplay` in the closure `run` once its
request has settled. -/
def updateProgressDisplay (run : Nat) (o : PollOutcome) (s : MonitorState) : MonitorState :=
  let s0 := { s with inFlight := s.inFlight.erase run }
  match o with
  | .snapshot p =>
    if p.is_processing then
      { s0 with retryCount := Function.update s0.retryCount run 0,
                loadingText := mainText p,
                loadingTimeInfo := timeInfo p }
    else stopGlobalProgressMonitoring s0
  | .failed => pollFailed run s0

/-- What can happen to the monitor. -/
inductive MonitorEvent
  /-- A call of `startGlobalProgressMonitoring()`. -/
  | start
  /-- A call of `stopGlobalProgressMonitoring()`. -/
  | stop
  /-- The interval `id` fires: if it is live, its closure sends a progress request. -/
  | tick (id : Nat)
  /-- A progress request of closure `run` settles. -/
  | settle (run : Nat) (o : PollOutcome)
  /-- Some other code of the page takes a timer id (`setTimeout`, another `setInterval`). -/
  | otherTimer

/-- One event. -/
def MonitorEvent.apply : MonitorEvent → MonitorState → MonitorState
  | .start, s => startGlobalProgressMonitoring s
  | .stop, s => stopGlobalProgressMonitoring s
  | .tick id, s => if id ∈ s.intervals then { s with inFlight := s.inFlight ++ [id] } else s
  | .settle run o, s => updateProgressDisplay run o s
  | .otherTimer, s => { s with nextTimerId := s.nextTimerId + 1 }

/-- A sequence of events, oldest first. -/
def runEvents (evs : List MonitorEvent) (s : MonitorState) : MonitorState :=
  evs.foldl (fun st e => e.apply st) s

/-- The number of live recurring poll intervals. -/
def liveIntervals (s : MonitorState) : Nat := s.intervals.length

/-- `n` consecutive failed polls of closure `run`. -/
def failTimes (run : Nat) : Nat → MonitorState → MonitorState
  | 0, s => s
  | n + 1, s => failTimes run n (updateProgressDisplay run .failed s)

/-- What a user or caller can observe of the monitor: whether the handle is set, how many
intervals are live, the failure counter of the closure the handle names, and the two texts. -/
structure MonitorView where
  handleSet : Bool
  live : Nat
  failures : Option Nat
  loadingText : String
  loadingTimeInfo : String
  deriving DecidableEq, Repr

/-- The observable part of a monitor state. -/
def MonitorState.view (s : MonitorState) : MonitorView where
  handleSet := s.globalProgressInterval.isSome
  live := liveIntervals s
  failures := s.globalProgressInterval.map s.retryCount
  loadingText := s.loadingText
  loadingTimeInfo := s.loadingTimeInfo

/-- The two displayed texts. -/
def MonitorState.display (s : MonitorState) : String × String :=
  (s.loadingText, s.loadingTimeInfo)

/-- The monitor is consistent: timer ids are positive and fresh, and the handle variable names
the only live interval, if any. -/
def MonitorState.Consistent (s : MonitorState) : Prop :=
  0 < s.nextTimerId ∧ (∀ i ∈ s.intervals, i < s.nextTimerId) ∧
    ((s.globalProgressInterval = none ∧ s.intervals = []) ∨
      ∃ h, 0 < h ∧ s.globalProgressInterval = some h ∧ s.intervals = [h])

/-! ## JavaScript numbers -/

/-- A JavaScript number: `NaN`, an infinity, or the exact fraction `num / den` (with `den > 0`).
Rounding to a 64-bit float and the negative zero are not modelled; two fractions of the same
value are different representations. -/
inductive JSNum
  | nan
  | infinity (negative : Bool)
  | fin (num : Int) (den : Nat)
  deriving DecidableEq, Repr

/-- The conversion `ToNumber` of a numeric property: `undefined` gives `NaN`. -/
def JSNum.ofField : Option Int → JSNum
  | some n => .fin n 1
  | none => .nan

/-- The operator `/`. -/
def JSNum.div : JSNum → JSNum → JSNum
  | .nan, _ => .nan
  | _, .nan => .nan
  | .infinity _, .infinity _ => .nan
  | .infinity a, .fin c _ => .infinity (a != decide (c < 0))
  | .fin _ _, .infinity _ => .fin 0 1
  | .fin a b, .fin c d =>
    if c = 0 then
      if a = 0 then .nan else .infinity (decide (a < 0))
    else .fin (a * d * c.sign) (b * c.natAbs)

/-- The operator `*`. -/
def JSNum.mul : JSNum → JSNum → JSNum
  | .nan, _ => .nan
  | _, .nan => .nan
  | .infinity a, .infinity b => .infinity (a != b)
  | .infinity a, .fin c _ => if c = 0 then .nan else .infinity (a != decide (c < 0))
  | .fin a _, .infinity b => if a = 0 then .nan else .infinity (decide (a < 0) != b)
  | .fin a b, .fin c d => .fin (a * c) (b * d)

/-- The method `x.toFixed(1)` (for magnitudes below 10^21): one decimal, ties rounded away from
zero. -/
def JSNum.toFixed1 : JSNum → String
  | .nan => "NaN"
  | .infinity false => "Infinity"
  | .infinity true => "-Infinity"
  | .fin a b =>
    let n := (20 * a.natAbs + b) / (2 * b)
    (if a < 0 then "-" else "") ++ toString (n / 10) ++ "." ++ toString (n % 10)

/-- Value of a run of decimal digits. -/
def digitsValue (ds : List Char) : Nat :=
  ds.foldl (fun acc c => 10 * acc + (c.toNat - '0'.toNat)) 0

/-- The blanks that `parseFloat` skips, restricted to the ASCII ones. -/
def isBlank (c : Char) : Bool :=
  c = ' ' || c.toNat = 9 || c.toNat = 10 || c.toNat = 11 || c.toNat = 12 || c.toNat = 13

/-- The value of the exponent part `e[+-]digits` at the head of `cs`; 0 when there is none. -/
def exponentPart : List Char → Int
  | [] => 0
  | c :: rest =>
    if c = 'e' || c = 'E' then
      match rest with
      | '-' :: ds => - (digitsValue (ds.takeWhile Char.isDigit) : Int)
      | '+' :: ds => (digitsValue (ds.takeWhile Char.isDigit) : Int)
      | ds => (digitsValue (ds.takeWhile Char.isDigit) : Int)
    else 0

/-- The unsigned part of `parseFloat`: `Infinity`, or digits with an optional fraction and
exponent; `NaN` when there is no digit. -/
def parseUnsigned (negative : Bool) (cs : List Char) : JSNum :=
  if "Infinity".data.isPrefixOf cs then .infinity negative
  else
    let intDigits := cs.takeWhile Char.isDigit
    let rest := cs.dropWhile Char.isDigit
    let fracDigits := match rest with
      | '.' :: more => more.takeWhile Char.isDigit
      | _ => []
    let afterMantissa := match rest with
      | '.' :: more => more.dropWhile Char.isDigit
      | other => other
    if intDigits.isEmpty && fracDigits.isEmpty then .nan
    else
      let mantissa : Int := digitsValue (intDigits ++ fracDigits)
      let signed : Int := if negative then - mantissa else mantissa
      let e : Int := exponentPart afterMantissa - fracDigits.length
      if 0 ≤ e then .fin (signed * 10 ^ e.toNat) 1 else .fin signed (10 ^ (- e).toNat)

/-- The builtin `parseFloat` applied to the text of an input: the longest leading decimal
literal, `NaN` when there is none. -/
def parseFloat (s : String) : JSNum :=
  match s.data.dropWhile isBlank with
  | '-' :: cs => parseUnsigned true cs
  | '+' :: cs => parseUnsigned false cs
  | cs => parseUnsigned false cs

/-! ## JavaScript objects used as mappings -/

/-- The read `o[k]`: `none` when the object has no such key. -/
def getProp {α : Type} : List (String × α) → String → Option α
  | [], _ => none
  | (k', v') :: rest, k => if k' = k then some v' else getProp rest k

/-- The assignment `o[k] = v`: replaces the value of an existing key, appends a new key. -/
def setProp {α : Type} : List (String × α) → String → α → List (String × α)
  | [], k, v => [(k, v)]
  | (k', v') :: rest, k, v =>
    if k' = k then (k, v) :: rest else (k', v') :: setProp rest k v

/-! ## The filter configuration (`buildFilterConfig`, lines 1155-1221) -/

/-- A form control: its `value` and its `checked` state. -/
structure Control where
  value : String
  checked : Bool
  deriving DecidableEq, Repr

/-- The form at the time `buildFilterConfig` reads it. -/
structure FilterForm where
  startDate : String
  endDate : String
  /-- The values of the selected options of `farmId`. -/
  selectedFarmIds : List String
  parityMin : String
  parityMax : String
  proteinMin : String
  proteinMax : String
  includeNullAsMatch : Bool
  /-- The controls with a computed id, by id (`document.getElementById` finds the first). -/
  controls : List (String × Control)
  deriving DecidableEq, Repr

/-- The lookup `document.getElementById(id)` for a computed id. -/
def FilterForm.getElementById (f : FilterForm) (id : String) : Option Control :=
  getProp f.controls id

/-- One entry of the filter configuration; a property that the entry does not have, or has with
the value `undefined`, is `none`. -/
structure FilterEntry where
  field : String
  enabled : Bool
  required : Bool
  start_date : Option String := none
  end_date : Option String := none
  allowed : Option (List String) := none
  min : Option JSNum := none
  max : Option JSNum := none
  include_null_as_match : Option Bool := none
  deriving DecidableEq, Repr

/-- A filter definition declared by the server (`/api/filters`). -/
structure FilterDef where
  field : Option String
  deriving DecidableEq, Repr

/-- Lines 1167-1173. -/
def dateRangeEntry (f : FilterForm) : FilterEntry :=
  { field := "sample_date", enabled := true, required := true,
    start_date := some f.startDate, end_date := some f.endDate }

/-- Lines 1177-1182. -/
def farmIdEntry (f : FilterForm) : FilterEntry :=
  { field := "farm_id", enabled := true, required := true, allowed := some f.selectedFarmIds }

/-- Lines 1184-1190. -/
def parityEntry (f : FilterForm) : FilterEntry :=
  { field := "parity", enabled := true, required := true,
    min := some (parseFloat f.parityMin), max := some (parseFloat f.parityMax) }

/-- Lines 1192-1199. -/
def proteinEntry (f : FilterForm) : FilterEntry :=
  { field := "protein_pct", enabled := true, required := true,
    min := some (parseFloat f.proteinMin), max := some (parseFloat f.proteinMax),
    include_null_as_match := some f.includeNullAsMatch }

/-- Lines 1164-1199: the object after the four mandatory assignments. -/
def mandatoryFilters (f : FilterForm) : List (String × FilterEntry) :=
  setProp (setProp (setProp (setProp [] "date_range" (dateRangeEntry f))
    "farm_id" (farmIdEntry f)) "parity" (parityEntry f)) "protein_pct" (proteinEntry f)

/-- Line 1203: `config.field || filterName`. -/
def fieldOf (entry : String × FilterDef) : String :=
  orDefault entry.2.field entry.1

/-- Lines 1204-1206: the toggle `enable_<field>` exists and is checked. -/
def toggleChecked (f : FilterForm) (field : String) : Bool :=
  match f.getElementById ("enable_" ++ field) with
  | some checkbox => checkbox.checked
  | none => false

/-- Lines 1207-1216: the entry emitted for an enabled optional filter. -/
def optionalEntry (f : FilterForm) (field : String) : FilterEntry :=
  { field := field, enabled := true, required := false,
    min := (f.getElementById ("min_" ++ field)).map (fun minInput => parseFloat minInput.value),
    max := (f.getElementById ("max_" ++ field)).map (fun maxInput => parseFloat maxInput.value) }

/-- Lines 1202-1218: the body of the `forEach` over `Object.entries(availableFilters)`. -/
def addOptional (f : FilterForm) (filters : List (String × FilterEntry))
    (entry : String × FilterDef) : List (String × FilterEntry) :=
  if toggleChecked f (fieldOf entry) then
    setProp filters (fieldOf entry) (optionalEntry f (fieldOf entry))
  else filters

/-- Lines 1155-1221: `buildFilterConfig`, with `availableFilters` as its list of entries. -/
def buildFilterConfig (f : FilterForm) (availableFilters : List (String × FilterDef)) :
    List (String × FilterEntry) :=
  availableFilters.foldl (addOptional f) (mandatoryFilters f)

/-! ## The result presenter (`displayResults`, lines 1224-1315; `clearPreviousResults`) -/

/-- A job result; both shapes in one record, a missing property is `none`. -/
structure JobResult where
  original_cow_count : Option Int := none
  range_cow_count : Option Int := none
  final_cow_count : Option Int := none
  filter_rate : Option Int := none
  total_rows : Option Int := none
  filtered_rows : Option Int := none
  download_url : Option String := none
  deriving DecidableEq, Repr

/-- A numeric property inside a template literal. -/
def template : Option Int → String
  | some n => toString n
  | none => "undefined"

/-- One statistics card of the result area: its heading, the text of its number, its caption. -/
structure Card where
  title : String
  value : String
  caption : String
  deriving DecidableEq, Repr

/-- The part of the page that the presenter writes: the cards of `resultInfo` (its markup left
out), whether the explanatory note of the current shape is there, and the download area. -/
structure ResultPage where
  resultSectionDisplay : String
  resultInfo : List Card
  resultNote : Bool
  downloadAreaDisplay : String
  downloadHref : String
  deriving DecidableEq, Repr

/-- Line 1302: the text of the legacy ratio,
`((result.filtered_rows / result.total_rows) * 100).toFixed(1)` followed by `%`. -/
def legacyRatioText (result : JobResult) : String :=
  (((JSNum.ofField result.filtered_rows).div (JSNum.ofField result.total_rows)).mul
    (.fin 100 1)).toFixed1 ++ "%"

/-- Lines 1231-1275: the cards of the current shape. -/
def currentCards (result : JobResult) : List Card :=
  [⟨"全部数据", template result.original_cow_count, "所有上传文件的牛头数"⟩,
   ⟨"筛选范围", template result.range_cow_count, "选中文件的牛头数"⟩,
   ⟨"筛选结果", template result.final_cow_count, "符合条件的牛头数"⟩,
   ⟨"筛选率", template result.filter_rate ++ "%", "符合条件占全部数据比例"⟩]

/-- Lines 1278-1308: the cards of the legacy shape. -/
def legacyCards (result : JobResult) : List Card :=
  [⟨"原始数据", template result.total_rows, "总行数"⟩,
   ⟨"筛选结果", template result.filtered_rows, "符合条件的行数"⟩,
   ⟨"筛选率", legacyRatioText result, "数据保留率"⟩]

/-- Lines 1224-1315: `displayResults`. -/
def displayResults (result : JobResult) (page : ResultPage) : ResultPage :=
  let page1 :=
    if result.original_cow_count ≠ none then
      { page with resultInfo := currentCards result, resultNote := true }
    else
      { page with resultInfo := legacyCards result, resultNote := false }
  if truthyStr result.download_url then
    { page1 with downloadHref := result.download_url.getD "", downloadAreaDisplay := "block" }
  else page1

/-- Lines 989-1009: `clearPreviousResults`. -/
def clearPreviousResults (page : ResultPage) : ResultPage :=
  { page with resultSectionDisplay := "none", resultInfo := [], resultNote := false,
              downloadAreaDisplay := "none", downloadHref := "#" }

/-- The text of the ratio card, the last card of either shape. -/
def ratioCardText (page : ResultPage) : Option String :=
  page.resultInfo.getLast?.map (fun card => card.value)

/-! ## Inputs used as witnesses and counterexamples -/

/-- The state after `startGlobalProgressMonitoring()` on a fresh page and one settled poll that
rendered the server's step text "获取进度信息". -/
def markedState : MonitorState :=
  updateProgressDisplay 1 (.snapshot ⟨true, some "获取进度信息", none, none, none, none⟩)
    (startGlobalProgressMonitoring (MonitorState.initial "" ""))

/-- A snapshot whose only time text, supplied by the server, ends in the delimiter. -/
def trailingSnapshot : ProgressSnapshot :=
  ⟨true, some "筛选", none, none, none, some "x | "⟩

/-- A form whose only computed-id control is a checked toggle `enable_parity`. -/
def collidingForm : FilterForm :=
  { startDate := "2024-01-01", endDate := "2024-12-31", selectedFarmIds := ["F1"],
    parityMin := "1", parityMax := "99", proteinMin := "3.0", proteinMax := "4.5",
    includeNullAsMatch := false, controls := [("enable_parity", ⟨"on", true⟩)] }

/-- A form with a checked toggle and a minimum input for the optional field `fat_pct`, and an
unchecked toggle for `lactose_pct`. -/
def sampleForm : FilterForm :=
  { startDate := "2024-01-01", endDate := "2024-12-31", selectedFarmIds := ["F1", "F2"],
    parityMin := "1", parityMax := "99", proteinMin := "3.0", proteinMax := "4.5",
    includeNullAsMatch := true,
    controls := [("enable_fat_pct", ⟨"on", true⟩), ("min_fat_pct", ⟨"2.8", false⟩),
                 ("enable_lactose_pct", ⟨"on", false⟩)] }

/-- Two optional filters declared by the server. -/
def sampleFilters : List (String × FilterDef) :=
  [("fat", ⟨some "fat_pct"⟩), ("lactose_pct", ⟨none⟩)]

/-- A page on which an earlier result with a download link is still shown. -/
def shownPage : ResultPage :=
  { resultSectionDisplay := "block", resultInfo := [], resultNote := false,
    downloadAreaDisplay := "block", downloadHref := "/api/download/old.xlsx" }

/-- A page as `clearPreviousResults` leaves it. -/
def clearedPage : ResultPage := clearPreviousResults shownPage

/-- The current-shape result `{original_cow_count: 100, range_cow_count: 60, final_cow_count: 30,
filter_rate: 50}`. -/
def currentSample : JobResult :=
  { original_cow_count := some 100, range_cow_count := some 60, final_cow_count := some 30,
    filter_rate := some 50 }

/-- A current-shape result with a download link. -/
def linkedSample : JobResult :=
  { original_cow_count := some 1, download_url := some "/api/download/r.xlsx" }

/-- The legacy result `{total_rows: 10, filtered_rows: 3}`, without a download link. -/
def legacySample : JobResult := { total_rows := some 10, filtered_rows := some 3 }

/-- The legacy result `{total_rows: 0, filtered_rows: 0}`. -/
def legacyZero : JobResult := { total_rows := some 0, filtered_rows := some 0 }

/-- The legacy result `{total_rows: 0, filtered_rows: 5}`. -/
def legacyZeroTotal : JobResult := { total_rows := some 0, filtered_rows := some 5 }

/-! ## Sequences of settled polls of one closure (C18) -/

/-- A sequence of settled progress requests of closure `run`, oldest first. -/
def runPolls (run : Nat) (outcomes : List PollOutcome) (s : MonitorState) : MonitorState :=
  outcomes.foldl (fun st o => updateProgressDisplay run o st) s

/-- The request failed. -/
def PollOutcome.isFailure : PollOutcome → Bool
  | .failed => true
  | .snapshot _ => false

/-- The request succeeded with `is_processing = true`. -/
def PollOutcome.isProcessing : PollOutcome → Bool
  | .failed => false
  | .snapshot p => p.is_processing

/-- The outcomes number `i`, ..., `i + n - 1` of a sequence. -/
def window (outcomes : List PollOutcome) (i n : Nat) : List PollOutcome :=
  (outcomes.drop i).take n

/-- In the words of the specification: no four failures occur without a successful
`is_processing = true` poll in between, that is, every window of consecutive outcomes without
such a poll holds at most three failures. -/
def NoFourFailures (outcomes : List PollOutcome) : Prop :=
  ∀ i ≤ outcomes.length, ∀ n ≤ outcomes.length,
    (∀ o ∈ window outcomes i n, o.isProcessing = false) →
      (window outcomes i n).countP PollOutcome.isFailure ≤ 3

instance decidableNoFourFailures (outcomes : List PollOutcome) :
    Decidable (NoFourFailures outcomes) := by
  unfold NoFourFailures
  infer_instance

/-- Three failures, a successful poll of a running job, three more failures. -/
def quietOutcomes : List PollOutcome :=
  [.failed, .failed, .failed, .snapshot ⟨true, some "筛选", none, some 10, none, none⟩,
   .failed, .failed, .failed]

/-- A snapshot of a running job whose step text is empty. -/
def emptyStepSnapshot : ProgressSnapshot := ⟨true, some "", none, none, none, none⟩

/-! ## The page around the monitor: alerts, overlay, requests (lines 221-247, 356-374) -/

/-- An alert banner: its message and its Bootstrap type. -/
structure Alert where
  message : String
  kind : String
  deriving DecidableEq, Repr

/-- A request sent with `fetch`, as far as the claims look at it. -/
inductive Request
  /-- The request `POST /api/filter/batch` with its form data. -/
  | filterBatch (selectedFiles : List String) (filters : List (String × FilterEntry))
      (displayFields : List String) (minMatchMonths : String)
  /-- The request `POST /api/upload` of one file. -/
  | upload (fileName : String)
  /-- The request `POST /api/upload/batch` of several files. -/
  | uploadBatch (fileNames : List String)
  /-- The request `GET /api/files` of `loadUploadedFiles`. -/
  | files
  deriving DecidableEq, Repr

/-- The page: the monitor, the result area, and what the submit and upload handlers write.
Timers created with `setTimeout` are counted by kind; they take their ids from the same counter
as the monitor's intervals. -/
structure Page where
  monitor : MonitorState
  results : ResultPage
  /-- The `style.display` of `loadingOverlay`. -/
  loadingOverlayDisplay : String
  /-- The alerts inside `alertContainer`. -/
  alertContainer : List Alert
  currentStep : Nat
  filterSectionDisplay : String
  /-- The 500 ms timers of line 1109 that have not fired. -/
  pendingStarts : Nat
  /-- The 5 s timers of `showAlert` that have not fired. -/
  pendingAlertRemovals : Nat
  /-- The requests sent so far, oldest first. -/
  requests : List Request
  /-- Whether `uploadArea` has the class `uploading`. -/
  uploading : Bool
  uploadProgressDisplay : String
  progressBarWidth : String
  uploadStatus : String
  /-- The live progress intervals of `uploadBatchFiles` (line 532). -/
  uploadIntervals : List Nat
  /-- The 2 s timers of the upload handlers that have not fired. -/
  pendingUploadHides : Nat
  fileInputValue : String

/-- The page right after the script is loaded. -/
def Page.initial : Page where
  monitor := MonitorState.initial "" ""
  results := { resultSectionDisplay := "none", resultInfo := [], resultNote := false,
               downloadAreaDisplay := "none", downloadHref := "#" }
  loadingOverlayDisplay := "none"
  alertContainer := []
  currentStep := 1
  filterSectionDisplay := "none"
  pendingStarts := 0
  pendingAlertRemovals := 0
  requests := []
  uploading := false
  uploadProgressDisplay := "none"
  progressBarWidth := "0%"
  uploadStatus := ""
  uploadIntervals := []
  pendingUploadHides := 0
  fileInputValue := ""

/-- Browser: a `setTimeout` or `setInterval` takes the next timer id. -/
def Page.takeTimer (p : Page) : Page :=
  { p with monitor := MonitorEvent.otherTimer.apply p.monitor }

/-- Lines 221-237: `showAlert` replaces the content of `alertContainer` by one alert and sets a
timer that removes it. -/
def showAlert (message kind : String) (p : Page) : Page :=
  { p.takeTimer with alertContainer := [⟨message, kind⟩],
                     pendingAlertRemovals := p.pendingAlertRemovals + 1 }

/-- Lines 231-236: the 5 s timer of `showAlert` fires and removes the first alert. -/
def alertTimerFires (p : Page) : Page :=
  if p.pendingAlertRemovals = 0 then p
  else { p with alertContainer := p.alertContainer.tail,
                pendingAlertRemovals := p.pendingAlertRemovals - 1 }

/-- Lines 240-247: `showLoading`. -/
def showLoading (visible : Bool) (p : Page) : Page :=
  let p1 := { p with loadingOverlayDisplay := if visible then "flex" else "none" }
  if visible then p1 else { p1 with monitor := stopGlobalProgressMonitoring p1.monitor }

/-- Lines 356-374: `updateStep` (the classes of the step markers are left out). -/
def updateStep (step : Nat) (p : Page) : Page :=
  { p with currentStep := step,
           filterSectionDisplay := if step ≥ 2 then "block" else "none",
           results := { p.results with
             resultSectionDisplay := if step ≥ 3 then "block" else "none" } }

/-! ## The batch filter submission (`handleBatchFilterSubmit`, lines 1056-1144) -/

/-- How the request `/api/filter/batch` settles: `fetch` rejects, `response.json()` rejects
(both with the browser's error message), a non-OK status with a JSON body, or an OK status with
a JSON body. -/
inductive BatchResponse
  | rejected (message : String)
  | invalidBody (message : String)
  | notOk (status : Nat) (detail : Option String)
  | okBody (success : Bool) (message : Option String) (result : JobResult)
  deriving DecidableEq, Repr

/-- The generic message of lines 1119 and 1132. -/
def batchFallback : String := "批量筛选失败"

/-- Lines 1147-1152: `getSelectedDisplayFields`. -/
def getSelectedDisplayFields : List String :=
  ["farm_id", "management_id", "parity"] ++ ["protein_pct"]

/-- Lines 1057-1112: the synchronous part of `handleBatchFilterSubmit`, up to the `await` of
line 1114: show the overlay, set the two texts, build the filters, send the request, set the
500 ms timer that starts the monitor. -/
def handleBatchFilterSubmit_begin (f : FilterForm) (availableFilters : List (String × FilterDef))
    (selectedFiles : List String) (minMatchMonths : String) (p : Page) : Page :=
  let p1 := { p with loadingOverlayDisplay := "flex",
                     monitor := { p.monitor with loadingText := "正在启动筛选处理...",
                                                 loadingTimeInfo := "准备中，请稍候..." } }
  let p2 := { p1 with requests := p1.requests ++
    [Request.filterBatch selectedFiles (buildFilterConfig f availableFilters)
      getSelectedDisplayFields (if minMatchMonths = "" then "3" else minMatchMonths)] }
  { p2.takeTimer with pendingStarts := p2.pendingStarts + 1 }

/-- Lines 1109-1112: the 500 ms timer fires. -/
def delayedStartFires (p : Page) : Page :=
  if p.pendingStarts = 0 then p
  else { p with pendingStarts := p.pendingStarts - 1,
                monitor := startGlobalProgressMonitoring p.monitor }

/-- Lines 1124-1130: the success branch. -/
def successBranch (message : Option String) (result : JobResult) (p : Page) : Page :=
  let p1 := showAlert (message.getD "undefined") "success" p
  let p2 := { p1 with results := displayResults result p1.results }
  let p3 := updateStep 3 p2
  { p3 with monitor := stopGlobalProgressMonitoring p3.monitor }

/-- Lines 1135-1140: the `catch` block, entered with the message of the error. -/
def catchBlock (message : String) (p : Page) : Page :=
  let p1 := showAlert message "danger" p
  { p1 with monitor := stopGlobalProgressMonitoring p1.monitor }

/-- Lines 1141-1143: the `finally` block. -/
def finallyBlock (p : Page) : Page := showLoading false p

/-- Lines 1114-1140: the rest of the `try` block once the request has settled, and the `catch`
block when it throws. -/
def tryCatch (r : BatchResponse) (p : Page) : Page :=
  match r with
  | .rejected message => catchBlock message p
  | .invalidBody message => catchBlock message p
  | .notOk _ detail => catchBlock (orDefault detail batchFallback) p
  | .okBody true message result => successBranch message result p
  | .okBody false message _ => catchBlock (orDefault message batchFallback) p

/-- Lines 1114-1143: the continuation of `handleBatchFilterSubmit` once the request has
settled. -/
def handleBatchFilterSubmit_settled (r : BatchResponse) (p : Page) : Page :=
  finallyBlock (tryCatch r p)

/-- An event that neither stops nor restarts a running monitor: a tick, another timer, a failed
poll, a successful poll with `is_processing = true`. -/
def MonitorEvent.keepsRunning : MonitorEvent → Bool
  | .start => false
  | .stop => false
  | .tick _ => true
  | .settle _ o => o.isFailure || o.isProcessing
  | .otherTimer => true

/-- The page when `handleBatchFilterSubmit` has completed: the synchronous part, then the
continuation after the request has settled with `r`. -/
def afterCleanup (f : FilterForm) (availableFilters : List (String × FilterDef))
    (selectedFiles : List String) (minMatchMonths : String) (r : BatchResponse) (p : Page) :
    Page :=
  handleBatchFilterSubmit_settled r
    (handleBatchFilterSubmit_begin f availableFilters selectedFiles minMatchMonths p)

/-- The page when the 500 ms timer fires after the handler has completed; `between` are the
monitor events that happen in between. -/
def lateStart (f : FilterForm) (availableFilters : List (String × FilterDef))
    (selectedFiles : List String) (minMatchMonths : String) (r : BatchResponse)
    (between : List MonitorEvent) (p : Page) : Page :=
  delayedStartFires
    { afterCleanup f availableFilters selectedFiles minMatchMonths r p with
      monitor := runEvents between
        (afterCleanup f availableFilters selectedFiles minMatchMonths r p).monitor }

/-! ## Uploads (`uploadFile`, `uploadBatchFiles`, lines 414-630) -/

/-- A `File` chosen by the user: its name and its size in bytes. -/
structure UploadFile where
  name : String
  size : Nat
  deriving DecidableEq, Repr

/-- The value of `name.split('.').pop()`: the text after the last `.` of the name, the whole
name when it has no `.`. -/
def lastSegment (name : String) : String :=
  ⟨(name.data.reverse.takeWhile (fun c => c != '.')).reverse⟩

/-- The method `toLowerCase`, on the ASCII letters (no other character lower-cases to a letter
of "zip" or "xlsx"). -/
def lowerCase (s : String) : String := ⟨s.data.map Char.toLower⟩

/-- Lines 419 and 501: `'.' + file.name.split('.').pop().toLowerCase()`. -/
def fileExtension (name : String) : String := "." ++ lowerCase (lastSegment name)

/-- Lines 418 and 499. -/
def allowedTypes : List String := [".zip", ".xlsx"]

/-- The size limit of lines 427 and 508, `100 * 1024 * 1024` bytes. -/
def maxFileSize : Nat := 100 * 1024 * 1024

/-- In the words of the specification: the lower-cased text after the last `.` of the name is
neither "zip" nor "xlsx". -/
def UnsupportedType (file : UploadFile) : Prop :=
  lowerCase (lastSegment file.name) ≠ "zip" ∧ lowerCase (lastSegment file.name) ≠ "xlsx"

instance decidableUnsupportedType (file : UploadFile) : Decidable (UnsupportedType file) := by
  unfold UnsupportedType
  infer_instance

/-- In the words of the specification: the size exceeds `100 * 1024 * 1024` bytes. -/
def Oversized (file : UploadFile) : Prop := file.size > 100 * 1024 * 1024

instance decidableOversized (file : UploadFile) : Decidable (Oversized file) := by
  unfold Oversized
  infer_instance

/-- Lines 414-455: `uploadFile` up to the `await` of line 452: the two checks, then the progress
display and the request. -/
def uploadFile (file : Option UploadFile) (p : Page) : Page :=
  match file with
  | none => p
  | some file =>
    if fileExtension file.name ∉ allowedTypes then
      showAlert "仅支持ZIP和XLSX文件格式" "danger" p
    else if file.size > maxFileSize then
      showAlert "文件大小不能超过100MB" "danger" p
    else
      { p with uploading := true, uploadProgressDisplay := "block",
               uploadStatus := "上传中...", progressBarWidth := "20%",
               requests := p.requests ++ [Request.upload file.name] }

/-- Lines 500-512: the loop over the files; the alert of the first file that fails a check. -/
def firstRejection : List UploadFile → Option Alert
  | [] => none
  | file :: rest =>
    if fileExtension file.name ∉ allowedTypes then
      some ⟨"文件 " ++ file.name ++ " 格式不支持，仅支持ZIP和XLSX文件", "danger"⟩
    else if file.size > maxFileSize then
      some ⟨"文件 " ++ file.name ++ " 大小超过100MB", "danger"⟩
    else firstRejection rest

/-- Lines 495-578: `uploadBatchFiles` up to the `await` of line 575: the checks, then the
progress display, the progress interval and the request. -/
def uploadBatchFiles (files : List UploadFile) (p : Page) : Page :=
  match files with
  | [] => p
  | _ :: _ =>
    match firstRejection files with
    | some alert => showAlert alert.message alert.kind p
    | none =>
      let p1 := { p with uploading := true, uploadProgressDisplay := "block",
                         uploadStatus := "准备批量上传 " ++ toString files.length ++ " 个文件...",
                         progressBarWidth := "0%" }
      let p2 := { p1.takeTimer with
        uploadIntervals := p1.monitor.nextTimerId :: p1.uploadIntervals }
      { p2 with
        requests := p2.requests ++ [Request.uploadBatch (files.map (fun file => file.name))] }

/-- One entry of `failed_files`. -/
structure FailedFile where
  filename : String
  error : String
  deriving DecidableEq, Repr

/-- How the request `/api/upload/batch` settles. -/
inductive UploadBatchResponse
  | rejected (message : String)
  | invalidBody (message : String)
  | notOk (status : Nat) (detail : Option String)
  | okBody (success : Bool) (message : Option String) (success_files : List String)
      (failed_files : List FailedFile)
  deriving DecidableEq, Repr

/-- Lines 598-601: the summary message. -/
def uploadSummary (successCount failCount : Nat) : String :=
  let message := "批量上传完成：成功 " ++ toString successCount ++ " 个"
  if failCount > 0 then message ++ "，失败 " ++ toString failCount ++ " 个" else message

/-- Lines 607-608: the message with the per-file breakdown. -/
def failedDetailsMessage (failed_files : List FailedFile) : String :=
  "失败文件详情：<br>" ++
    String.intercalate "<br>" (failed_files.map (fun f => f.filename ++ ": " ++ f.error))

/-- Lines 590-612: the success branch up to the `await` of line 612, where `loadUploadedFiles`
sends its request. -/
def uploadSuccessBranch (success_files : List String) (failed_files : List FailedFile)
    (p : Page) : Page :=
  let successCount := success_files.length
  let failCount := failed_files.length
  let p1 := { p with progressBarWidth := "100%", uploadStatus := "上传完成" }
  let p2 := showAlert (uploadSummary successCount failCount)
    (if successCount > 0 then "success" else "warning") p1
  let p3 := if failed_files.length > 0 then
      showAlert (failedDetailsMessage failed_files) "warning" p2
    else p2
  { p3 with requests := p3.requests ++ [Request.files] }

/-- Lines 622-629: the `finally` block of the upload handlers. -/
def uploadFinally (p : Page) : Page :=
  { p.takeTimer with pendingUploadHides := p.pendingUploadHides + 1, fileInputValue := "" }

/-- Lines 619-621 and 622-629: the `catch` block, then the `finally` block. -/
def uploadCatch (message : String) (p : Page) : Page :=
  uploadFinally (showAlert message "danger" p)

/-- Browser: `clearInterval(progressInterval)` (line 581). -/
def clearUploadInterval (progressInterval : Nat) (p : Page) : Page :=
  { p with
    uploadIntervals := p.uploadIntervals.filter (fun i => decide (i ≠ progressInterval)) }

/-- Lines 575-621: the continuation of `uploadBatchFiles` once the request has settled.  In the
success branch it runs up to the `await` of line 612; the `finally` block follows when the two
reloads are done. -/
def uploadBatchFiles_settled (progressInterval : Nat) (r : UploadBatchResponse) (p : Page) :
    Page :=
  match r with
  | .rejected message => uploadCatch message p
  | .invalidBody message => uploadCatch message (clearUploadInterval progressInterval p)
  | .notOk _ detail =>
    uploadCatch (orDefault detail "批量上传失败") (clearUploadInterval progressInterval p)
  | .okBody true _ success_files failed_files =>
    uploadSuccessBranch success_files failed_files (clearUploadInterval progressInterval p)
  | .okBody false message _ _ =>
    uploadCatch (orDefault message "批量上传失败") (clearUploadInterval progressInterval p)

/-- The response `{success: true, success_files: ["a.zip"], failed_files: [{filename: "b.zip",
error: "bad"}]}`. -/
def partialResponse : UploadBatchResponse :=
  .okBody true (some "ok") ["a.zip"] [⟨"b.zip", "bad"⟩]

/-- A batch of two valid files followed by a file of an unsupported type and an oversized
file. -/
def mixedBatch : List UploadFile :=
  [⟨"jan.zip", 1000⟩, ⟨"feb.XLSX", 2000⟩, ⟨"notes.txt", 10⟩, ⟨"big.zip", 200000000⟩]

/-! ## The page lifecycle signal (lines 37-82) -/

/-- The visibility handler's variables, the browser's `document.hidden`, the pending 3 s timers
with the time (in milliseconds) at which each fires, and the times at which a timer sent the
close signal. -/
structure Lifecycle where
  /-- Browser: `document.hidden`. -/
  hidden : Bool
  isPageVisible : Bool
  visibilityChangeCount : Nat
  /-- The pending timers of line 48, by the time at which they fire, oldest first. -/
  timers : List Nat
  /-- The times at which a timer called `sendCloseSignal`, oldest first. -/
  closeSignals : List Nat
  deriving DecidableEq, Repr

/-- The page is loaded visible; nothing is pending. -/
def Lifecycle.initial : Lifecycle :=
  { hidden := false, isPageVisible := true, visibilityChangeCount := 0, timers := [],
    closeSignals := [] }

/-- Lines 41-57: `handleVisibilityChange`, run at time `now`. -/
def handleVisibilityChange (now : Nat) (s : Lifecycle) : Lifecycle :=
  if s.hidden then
    { s with isPageVisible := false, visibilityChangeCount := s.visibilityChangeCount + 1,
             timers := s.timers ++ [now + 3000] }
  else { s with isPageVisible := true }

/-- Lines 48-52: the callback of the timer, run at time `now`. -/
def visibilityTimerFires (now : Nat) (s : Lifecycle) : Lifecycle :=
  if s.hidden then { s with closeSignals := s.closeSignals ++ [now] } else s

/-- Browser: the timers due at or before time `t` fire, each at its own time. -/
def fireDue (t : Nat) (s : Lifecycle) : Lifecycle :=
  (s.timers.filter (fun fireTime => decide (fireTime ≤ t))).foldl
    (fun st fireTime => visibilityTimerFires fireTime st)
    { s with timers := s.timers.filter (fun fireTime => decide (¬ fireTime ≤ t)) }

/-- Browser: at time `t` the page becomes hidden or visible: the timers due by then have fired,
`document.hidden` changes, the event `visibilitychange` runs the handler. -/
def visibilityChanges (t : Nat) (hidden : Bool) (s : Lifecycle) : Lifecycle :=
  handleVisibilityChange t { fireDue t s with hidden := hidden }

/-- A timed sequence of visibility transitions `(time, hidden)`, in the order of time, run from
the initial state, and the timers due until `horizon`. -/
def lifecycleUntil (transitions : List (Nat × Bool)) (horizon : Nat) : Lifecycle :=
  fireDue horizon
    (transitions.foldl (fun st tr => visibilityChanges tr.1 tr.2 st) Lifecycle.initial)

/-- In the words of the specification: whether the page is hidden at time `t`, given the
transitions (the last transition at or before `t` decides; the page starts visible). -/
def hiddenAt (transitions : List (Nat × Bool)) (t : Nat) : Bool :=
  ((transitions.filter (fun tr => decide (tr.1 ≤ t))).getLast?.map (fun tr => tr.2)).getD false

/-- In the words of the specification: the page is hidden during the whole of the `d`
milliseconds before `t`: it is hidden at `t - d` and no transition to visible falls between
`t - d` and `t`. -/
def continuouslyHidden (transitions : List (Nat × Bool)) (t d : Nat) : Bool :=
  decide (d ≤ t) && hiddenAt transitions (t - d) &&
    transitions.all (fun tr => !(decide (t - d < tr.1) && decide (tr.1 ≤ t)) || tr.2)

/-- Hide at 0 s, show at 1 s, hide at 2 s. -/
def briefSwitches : List (Nat × Bool) := [(0, true), (1000, false), (2000, true)]

/-! ## The connection probe (lines 84-190) -/

/-- The probe's variables, the status element and what the probe has scheduled.  The element
`loading-status` is created by `showServerLoadingMessage` and removed by
`hideServerLoadingMessage`: its text is `none` while it is not in the document. -/
structure ProbeState where
  isServerReady : Bool
  /-- Line 85: `null` or the handle of the retry interval. -/
  connectionCheckInterval : Option Nat
  /-- Browser: the retry intervals that were created and not yet cleared. -/
  checkIntervals : List Nat
  /-- The `textContent` of the element `loading-status`, when the element exists. -/
  loadingStatus : Option String
  /-- The probes whose request has not settled. -/
  probesInFlight : Nat
  /-- The 500 ms timers of line 111 that have not fired. -/
  pendingInits : Nat
  /-- How often `initializeApp` has run. -/
  initializations : Nat
  deriving DecidableEq, Repr

/-- The state when the document is loaded. -/
def ProbeState.initial : ProbeState :=
  { isServerReady := false, connectionCheckInterval := none, checkIntervals := [],
    loadingStatus := none, probesInFlight := 0, pendingInits := 0, initializations := 0 }

/-- How the request `/health` settles: a response with its status, an abort by the 3 s timeout
(`error.name === 'AbortError'`), or any other error. -/
inductive ProbeOutcome
  | response (status : Nat)
  | aborted
  | failed
  deriving DecidableEq, Repr

/-- Browser: `response.ok`, a status from 200 to 299. -/
def responseOk (status : Nat) : Bool := decide (200 ≤ status) && decide (status ≤ 299)

/-- Lines 164-169: `updateLoadingStatus` writes the text when the element exists. -/
def updateLoadingStatus (text : String) (s : ProbeState) : ProbeState :=
  match s.loadingStatus with
  | some _ => { s with loadingStatus := some text }
  | none => s

/-- Lines 131-155: `showServerLoadingMessage` creates the message with its status element unless
it exists. -/
def showServerLoadingMessage (s : ProbeState) : ProbeState :=
  match s.loadingStatus with
  | some _ => s
  | none => { s with loadingStatus := some "检查服务器状态" }

/-- Lines 157-162: `hideServerLoadingMessage`. -/
def hideServerLoadingMessage (s : ProbeState) : ProbeState :=
  { s with loadingStatus := none }

/-- The status text of line 118. -/
def statusMessage (status : Nat) : String := "服务器响应异常 (" ++ toString status ++ ")"

/-- The status text of line 123. -/
def timeoutMessage : String := "连接超时，继续尝试..."

/-- The status text of line 125. -/
def waitingMessage : String := "等待服务器启动..."

/-- The status text that a failed probe asks for, by the class of the failure. -/
def failureMessage : ProbeOutcome → String
  | .response status => statusMessage status
  | .aborted => timeoutMessage
  | .failed => waitingMessage

/-- Lines 88-99: `checkServerConnection` up to the `await` of line 96. -/
def checkServerConnection_begin (s : ProbeState) : ProbeState :=
  { updateLoadingStatus "正在连接服务器..." s with probesInFlight := s.probesInFlight + 1 }

/-- Lines 101-128: the continuation of `checkServerConnection` once the request has settled: the
returned value and the new state. -/
def checkServerConnection_settled (o : ProbeOutcome) (s : ProbeState) : Bool × ProbeState :=
  let s0 := { s with probesInFlight := s.probesInFlight - 1 }
  match o with
  | .response status =>
    if responseOk status then
      let s1 := { updateLoadingStatus "服务器连接成功！" s0 with isServerReady := true }
      let s2 := match s1.connectionCheckInterval with
        | some h =>
          if h ≠ 0 then
            { s1 with checkIntervals := s1.checkIntervals.filter (fun i => decide (i ≠ h)),
                      connectionCheckInterval := none }
          else s1
        | none => s1
      (true, { s2 with pendingInits := s2.pendingInits + 1 })
    else (false, updateLoadingStatus (statusMessage status) s0)
  | .aborted => (false, updateLoadingStatus timeoutMessage s0)
  | .failed => (false, updateLoadingStatus waitingMessage s0)

/-- Lines 111-115: the 500 ms timer fires: the message is removed and `initializeApp` runs. -/
def initTimerFires (s : ProbeState) : ProbeState :=
  if s.pendingInits = 0 then s
  else { hideServerLoadingMessage s with pendingInits := s.pendingInits - 1,
                                         initializations := s.initializations + 1 }

/-! ## App initialisation and the startup handler (lines 171-218) -/

/-- What `initializeApp` leaves on the page: the listeners and the requests of the loaders. -/
structure AppSetup where
  /-- The `click` listeners of `selectFileBtn` (line 195): each registration passes a new arrow
  function, so each one is kept. -/
  selectFileClickListeners : Nat
  /-- The listeners registered with a named function, as (element, event, function). -/
  namedListeners : List (String × String × String)
  /-- The URLs requested by the loaders, oldest first. -/
  loads : List String
  deriving DecidableEq, Repr

/-- Browser: `addEventListener` with a named function; a listener that is already registered for
the same element, event and function is not added again. -/
def addEventListener (target event handler : String) (a : AppSetup) : AppSetup :=
  if (target, event, handler) ∈ a.namedListeners then a
  else { a with namedListeners := a.namedListeners ++ [(target, event, handler)] }

/-- Lines 193-218: `initializeEventListeners`. -/
def initializeEventListeners (a : AppSetup) : AppSetup :=
  let a1 := { a with selectFileClickListeners := a.selectFileClickListeners + 1 }
  let a2 := addEventListener "fileInput" "change" "handleFileSelect" a1
  let a3 := addEventListener "uploadArea" "dragover" "handleDragOver" a2
  let a4 := addEventListener "uploadArea" "dragleave" "handleDragLeave" a3
  let a5 := addEventListener "uploadArea" "drop" "handleFileDrop" a4
  let a6 := addEventListener "selectAllFiles" "change" "handleSelectAllFiles" a5
  let a7 := addEventListener "batchFilterBtn" "click" "handleBatchFilter" a6
  let a8 := addEventListener "deleteSelectedBtn" "click" "handleDeleteSelected" a7
  addEventListener "filterForm" "submit" "handleFilterSubmit" a8

/-- Lines 171-178: `initializeApp`: the listeners, then the three loaders send their requests. -/
def initializeApp (a : AppSetup) : AppSetup :=
  let a1 := initializeEventListeners a
  { a1 with loads := a1.loads ++ ["/api/filters", "/api/files", "/api/farm-ids"] }

/-- The probe together with what `initializeApp` has set up. -/
structure Startup where
  probe : ProbeState
  app : AppSetup
  deriving DecidableEq, Repr

/-- The state when the document is loaded. -/
def Startup.initial : Startup :=
  { probe := ProbeState.initial,
    app := { selectFileClickListeners := 0, namedListeners := [], loads := [] } }

/-- What can happen during startup. -/
inductive StartupEvent
  /-- A call of `checkServerConnection()` runs up to its `await`. -/
  | begins
  /-- The retry interval `id` fires: if it is live, `checkServerConnection()` is called. -/
  | tick (id : Nat)
  /-- A probe called by the retry interval settles. -/
  | settles (o : ProbeOutcome)
  /-- The probe called by the startup handler settles and the callback of line 183 runs; the
  browser would return `intervalId` for a `setInterval`. -/
  | firstSettles (o : ProbeOutcome) (intervalId : Nat)
  /-- A 500 ms timer of line 111 fires. -/
  | initTimer
  deriving DecidableEq, Repr

/-- Lines 183-189: the callback of the startup handler, with the value the probe returned. -/
def startupCallback (ready : Bool) (intervalId : Nat) (s : ProbeState) : ProbeState :=
  if ready then s
  else { showServerLoadingMessage s with connectionCheckInterval := some intervalId,
                                         checkIntervals := intervalId :: s.checkIntervals }

/-- One startup event. -/
def StartupEvent.apply : StartupEvent → Startup → Startup
  | .begins, s => { s with probe := checkServerConnection_begin s.probe }
  | .tick id, s =>
    if id ∈ s.probe.checkIntervals then { s with probe := checkServerConnection_begin s.probe }
    else s
  | .settles o, s => { s with probe := (checkServerConnection_settled o s.probe).2 }
  | .firstSettles o intervalId, s =>
    let result := checkServerConnection_settled o s.probe
    { s with probe := startupCallback result.1 intervalId result.2 }
  | .initTimer, s =>
    if s.probe.pendingInits = 0 then s
    else { probe := initTimerFires s.probe, app := initializeApp s.app }

/-- A sequence of startup events, oldest first. -/
def runStartup (evs : List StartupEvent) (s : Startup) : Startup :=
  evs.foldl (fun st e => e.apply st) s

/-- Whether the event is a probe that settles with an OK response. -/
def StartupEvent.settlesOk : StartupEvent → Bool
  | .settles (.response status) => responseOk status
  | .firstSettles (.response status) _ => responseOk status
  | _ => false

/-- The server is down at first, then slow: the first probe fails, the retry interval fires
twice while no response has come, both probes then get status 200, both timers fire. -/
def slowStart : List StartupEvent :=
  [.begins, .firstSettles .failed 1, .tick 1, .tick 1, .settles (.response 200),
   .settles (.response 200), .initTimer, .initTimer]

/-! ## The file selection and the submission of the filter form (lines 5-6, 700-706, 850-925,
967-1053) -/

/-- The page together with the two selection variables and the bodies of the requests
`POST /api/filter` that `handleSingleFilterSubmit` has sent. -/
structure App where
  page : Page
  /-- Line 5. -/
  selectedFileId : Option String
  /-- Line 6. -/
  selectedFiles : List String
  /-- The `file_id` and `filters` of each request of `handleSingleFilterSubmit`, oldest first. -/
  singleRequests : List (String × List (String × FilterEntry))

/-- The state when the script is loaded: `selectedFileId = null`, `selectedFiles = []`. -/
def App.initial : App :=
  { page := Page.initial, selectedFileId := none, selectedFiles := [], singleRequests := [] }

/-- The branch that `handleFilterSubmit` takes. -/
inductive SubmitBranch
  | batch
  | single
  | warning
  deriving DecidableEq, Repr

/-- Lines 1012-1030: `handleSingleFilterSubmit` up to its `await`. -/
def handleSingleFilterSubmit_begin (f : FilterForm) (availableFilters : List (String × FilterDef))
    (a : App) : App :=
  { a with page := showLoading true a.page,
           singleRequests := a.singleRequests ++
             [(a.selectedFileId.getD "", buildFilterConfig f availableFilters)] }

/-- Lines 967-986: `handleFilterSubmit` up to the `await` of the branch it takes, and the
branch. -/
def handleFilterSubmit (f : FilterForm) (availableFilters : List (String × FilterDef))
    (minMatchMonths : String) (a : App) : SubmitBranch × App :=
  let p1 := { a.page with results := clearPreviousResults a.page.results }
  let a1 := { a with page := showAlert "正在应用新的筛选条件..." "info" p1 }
  if a1.selectedFiles.length > 0 then
    let p2 := handleBatchFilterSubmit_begin f availableFilters a1.selectedFiles minMatchMonths
      a1.page
    (.batch, { a1 with page := p2 })
  else if truthyStr a1.selectedFileId then
    (.single, handleSingleFilterSubmit_begin f availableFilters a1)
  else
    (.warning, { a1 with page := showAlert "请先选择要筛选的文件" "warning" a1.page })

/-- Lines 903-920: the continuation of `deleteFile(fileId)` once the server has answered. -/
def deleteFile_settled (fileId : String) (success : Bool) (message : Option String) (a : App) :
    App :=
  if success then
    let a1 := { a with page := showAlert "文件已删除" "success" a.page }
    if a1.selectedFileId = some fileId then
      { a1 with selectedFileId := none, page := updateStep 1 a1.page }
    else a1
  else { a with page := showAlert (orDefault message "删除失败") "danger" a.page }

/-- Lines 869-889: the continuation of `handleDeleteSelected` once the servers' answers are in:
the summary alert, the reset of `selectedFiles`, the reload of the file list, the `finally`
block. -/
def handleDeleteSelected_settled (successCount failCount : Nat) (a : App) : App :=
  let message := "删除完成：成功 " ++ toString successCount ++ " 个"
  let message := if failCount > 0 then message ++ "，失败 " ++ toString failCount ++ " 个"
    else message
  let p1 := showAlert message (if successCount > 0 then "success" else "danger") a.page
  let p2 := { p1 with requests := p1.requests ++ [Request.files] }
  { a with selectedFiles := [], page := showLoading false p2 }

/-- What can happen to the selection variables: the three functions that assign one of them
(`updateFileSelection`, `handleDeleteSelected`, `deleteFile`), the submission of the form, and
any other code of the page, which changes at most the page. -/
inductive AppEvent
  /-- Lines 700-706: `updateFileSelection` with the values of the checked boxes. -/
  | updateFileSelection (checked : List String)
  | deleteSelectedSettled (successCount failCount : Nat)
  | deleteFileSettled (fileId : String) (success : Bool) (message : Option String)
  | filterSubmit (f : FilterForm) (availableFilters : List (String × FilterDef))
      (minMatchMonths : String)
  | other (change : Page → Page)

/-- One event. -/
def AppEvent.apply : AppEvent → App → App
  | .updateFileSelection checked, a => { a with selectedFiles := checked }
  | .deleteSelectedSettled successCount failCount, a =>
    handleDeleteSelected_settled successCount failCount a
  | .deleteFileSettled fileId success message, a => deleteFile_settled fileId success message a
  | .filterSubmit f availableFilters minMatchMonths, a =>
    (handleFilterSubmit f availableFilters minMatchMonths a).2
  | .other change, a => { a with page := change a.page }

/-- A sequence of events, oldest first. -/
def runApp (evs : List AppEvent) (a : App) : App :=
  evs.foldl (fun st e => e.apply st) a

/-! ## The monitor invariant (C1) -/

theorem consistent_initial (text time : String) :
    (MonitorState.initial text time).Consistent := by
  refine ⟨Nat.one_pos, ?_, Or.inl ⟨rfl, rfl⟩⟩
  intro i hi
  simp [MonitorState.initial] at hi

theorem consistent_stop {s : MonitorState} (h : s.Consistent) :
    (stopGlobalProgressMonitoring s).Consistent := by
  obtain ⟨hpos, hfresh, hcase⟩ := h
  rcases hcase with ⟨hnone, hnil⟩ | ⟨k, hk, hsome, hone⟩
  · simp only [stopGlobalProgressMonitoring, hnone]
    exact ⟨hpos, hfresh, Or.inl ⟨hnone, hnil⟩⟩
  · have hk0 : k ≠ 0 := Nat.pos_iff_ne_zero.mp hk
    simp only [stopGlobalProgressMonitoring, hsome, hk0, ne_eq, not_false_eq_true, if_true]
    refine ⟨hpos, ?_, Or.inl ⟨rfl, ?_⟩⟩
    · intro i hi
      simp [clearInterval, hone] at hi
    · simp [clearInterval, hone]

theorem consistent_start {s : MonitorState} (h : s.Consistent) :
    (startGlobalProgressMonitoring s).Consistent := by
  obtain ⟨hpos, hfresh, hcase⟩ := h
  rcases hcase with ⟨hnone, hnil⟩ | ⟨k, hk, hsome, hone⟩
  · refine ⟨?_, ?_, Or.inr ⟨s.nextTimerId, hpos, ?_, ?_⟩⟩ <;>
      simp [startGlobalProgressMonitoring, setInterval, hnone, hnil]
  · have hk0 : k ≠ 0 := Nat.pos_iff_ne_zero.mp hk
    refine ⟨?_, ?_, Or.inr ⟨s.nextTimerId, hpos, ?_, ?_⟩⟩ <;>
      simp [startGlobalProgressMonitoring, setInterval, clearInterval, hsome, hone, hk0]

theorem consistent_pollFailed {s : MonitorState} (run : Nat) (h : s.Consistent) :
    (pollFailed run s).Consistent := by
  unfold pollFailed
  simp only
  split
  · exact h
  · split <;> exact h

theorem consistent_update {s : MonitorState} (run : Nat) (o : PollOutcome) (h : s.Consistent) :
    (updateProgressDisplay run o s).Consistent := by
  have h0 : ({ s with inFlight := s.inFlight.erase run } : MonitorState).Consistent := h
  cases o with
  | failed => exact consistent_pollFailed run h0
  | snapshot p =>
    simp only [updateProgressDisplay]
    split
    · exact h0
    · exact consistent_stop h0

theorem consistent_apply {s : MonitorState} (e : MonitorEvent) (h : s.Consistent) :
    (e.apply s).Consistent := by
  cases e with
  | start => exact consistent_start h
  | stop => exact consistent_stop h
  | tick id =>
    simp only [MonitorEvent.apply]
    split
    · exact h
    · exact h
  | settle run o => exact consistent_update run o h
  | otherTimer =>
    obtain ⟨hpos, hfresh, hcase⟩ := h
    exact ⟨Nat.succ_pos _, fun i hi => Nat.lt_succ_of_lt (hfresh i hi), hcase⟩

theorem consistent_runEvents (evs : List MonitorEvent) :
    ∀ {s : MonitorState}, s.Consistent → (runEvents evs s).Consistent := by
  induction evs with
  | nil => intro s h; exact h
  | cons e rest ih => intro s h; exact ih (consistent_apply e h)

/-- C1: after every finite sequence of start/stop calls from the initial state (interleaved with
any timer ticks, settled progress requests and other timers), at most one recurring poll interval
is live, and exactly one is live iff `globalProgressInterval` is not `null`. -/
theorem at_most_one_live_interval (evs : List MonitorEvent) (text time : String) :
    liveIntervals (runEvents evs (MonitorState.initial text time)) ≤ 1 ∧
    (liveIntervals (runEvents evs (MonitorState.initial text time)) = 1 ↔
      (runEvents evs (MonitorState.initial text time)).globalProgressInterval ≠ none) := by
  obtain ⟨_, _, hcase⟩ := consistent_runEvents evs (consistent_initial text time)
  rcases hcase with ⟨hnone, hnil⟩ | ⟨k, _, hsome, hone⟩
  · simp [liveIntervals, hnone, hnil]
  · simp [liveIntervals, hsome, hone]


/-! ## Start and stop are idempotent (C2) -/

theorem stop_stop (s : MonitorState) :
    stopGlobalProgressMonitoring (stopGlobalProgressMonitoring s)
      = stopGlobalProgressMonitoring s := by
  unfold stopGlobalProgressMonitoring
  cases hg : s.globalProgressInterval with
  | none => simp [hg]
  | some h =>
    by_cases hh : h = 0
    · simp [hh, hg]
    · simp [hh]

theorem stop_display (s : MonitorState) :
    (stopGlobalProgressMonitoring s).display = s.display := by
  unfold stopGlobalProgressMonitoring
  cases hg : s.globalProgressInterval with
  | none => rfl
  | some h =>
    by_cases hh : h = 0
    · simp [hh]
    · simp [hh, MonitorState.display, clearInterval]

theorem start_view {s : MonitorState} (h : s.Consistent) :
    (startGlobalProgressMonitoring s).view
      = ⟨true, 1, some 0, s.loadingText, s.loadingTimeInfo⟩ := by
  obtain ⟨_, _, hcase⟩ := h
  rcases hcase with ⟨hnone, hnil⟩ | ⟨k, hk, hsome, hone⟩
  · simp [startGlobalProgressMonitoring, setInterval, MonitorState.view, liveIntervals,
      hnone, hnil]
  · have hk0 : k ≠ 0 := Nat.pos_iff_ne_zero.mp hk
    simp [startGlobalProgressMonitoring, setInterval, clearInterval, MonitorState.view,
      liveIntervals, hsome, hone, hk0]

theorem start_display (s : MonitorState) :
    (startGlobalProgressMonitoring s).display = s.display := by
  unfold startGlobalProgressMonitoring
  cases hg : s.globalProgressInterval with
  | none => rfl
  | some h =>
    by_cases hh : h = 0
    · simp [hh, MonitorState.display, setInterval]
    · simp [hh, MonitorState.display, setInterval, clearInterval]

/-- C2: stopping twice leaves exactly the state that stopping once leaves, with the displayed
texts untouched; in every consistent state the handle is then empty and no interval is live, and
starting twice leaves the same observable monitor state as starting once: handle set, one live
interval, failure counter 0, texts untouched. -/
theorem start_stop_idempotent (s : MonitorState) :
    stopGlobalProgressMonitoring (stopGlobalProgressMonitoring s)
        = stopGlobalProgressMonitoring s ∧
    (stopGlobalProgressMonitoring s).display = s.display ∧
    (s.Consistent →
      (stopGlobalProgressMonitoring s).globalProgressInterval = none ∧
      liveIntervals (stopGlobalProgressMonitoring s) = 0 ∧
      (startGlobalProgressMonitoring (startGlobalProgressMonitoring s)).view
        = (startGlobalProgressMonitoring s).view ∧
      (startGlobalProgressMonitoring s).view
        = ⟨true, 1, some 0, s.loadingText, s.loadingTimeInfo⟩) := by
  refine ⟨stop_stop s, stop_display s, fun h => ?_⟩
  have hstop := consistent_stop h
  have hv1 := start_view h
  have hv2 := start_view (consistent_start h)
  have hd := start_display s
  simp only [MonitorState.display, Prod.mk.injEq] at hd
  refine ⟨?_, ?_, ?_, hv1⟩
  · obtain ⟨_, _, hcase⟩ := h
    rcases hcase with ⟨hnone, _⟩ | ⟨k, hk, hsome, _⟩
    · simp [stopGlobalProgressMonitoring, hnone]
    · have hk0 : k ≠ 0 := Nat.pos_iff_ne_zero.mp hk
      simp [stopGlobalProgressMonitoring, hsome, hk0]
  · obtain ⟨_, _, hcase⟩ := h
    rcases hcase with ⟨hnone, hnil⟩ | ⟨k, hk, hsome, hone⟩
    · simp [stopGlobalProgressMonitoring, liveIntervals, hnone, hnil]
    · have hk0 : k ≠ 0 := Nat.pos_iff_ne_zero.mp hk
      simp [stopGlobalProgressMonitoring, liveIntervals, clearInterval, hsome, hone, hk0]
  · rw [hv2, hv1, hd.1, hd.2]

/-- Witness for C2: the monitor right after its first start. -/
theorem start_stop_idempotent_witness :
    (startGlobalProgressMonitoring (MonitorState.initial "a" "b")).Consistent ∧
    (startGlobalProgressMonitoring (startGlobalProgressMonitoring
        (startGlobalProgressMonitoring (MonitorState.initial "a" "b")))).view
      = (startGlobalProgressMonitoring
          (startGlobalProgressMonitoring (MonitorState.initial "a" "b"))).view :=
  ⟨consistent_start (consistent_initial "a" "b"),
   ((start_stop_idempotent _).2.2 (consistent_start (consistent_initial "a" "b"))).2.2.1⟩


/-! ## Completion stops the monitor and keeps the texts (C3) -/

theorem update_not_processing (run : Nat) (p : ProgressSnapshot) (s : MonitorState)
    (hp : p.is_processing = false) :
    updateProgressDisplay run (.snapshot p) s
      = stopGlobalProgressMonitoring { s with inFlight := s.inFlight.erase run } := by
  simp [updateProgressDisplay, hp]

theorem update_processing_display (run : Nat) (p : ProgressSnapshot) (s : MonitorState)
    (hp : p.is_processing = true) :
    (updateProgressDisplay run (.snapshot p) s).display = (mainText p, timeInfo p) := by
  simp [updateProgressDisplay, hp, MonitorState.display]

/-- C3: in a running monitor (handle `h` set), a settled poll whose snapshot has
`is_processing = false` sets the handle to `null`, clears the interval `h` (no interval stays
live when the state was consistent) and leaves both texts as they were; when the state came from
a poll with `is_processing = true`, the texts are still what that poll rendered. -/
theorem not_processing_stops_and_keeps_text (s : MonitorState) (h run : Nat)
    (p : ProgressSnapshot) (hrun : s.globalProgressInterval = some h) (hh : h ≠ 0)
    (hp : p.is_processing = false) :
    (updateProgressDisplay run (.snapshot p) s).globalProgressInterval = none ∧
    h ∉ (updateProgressDisplay run (.snapshot p) s).intervals ∧
    (s.Consistent → liveIntervals (updateProgressDisplay run (.snapshot p) s) = 0) ∧
    (updateProgressDisplay run (.snapshot p) s).loadingText = s.loadingText ∧
    (updateProgressDisplay run (.snapshot p) s).loadingTimeInfo = s.loadingTimeInfo ∧
    (∀ (s0 : MonitorState) (run0 : Nat) (p0 : ProgressSnapshot),
      p0.is_processing = true → s = updateProgressDisplay run0 (.snapshot p0) s0 →
      (updateProgressDisplay run (.snapshot p) s).loadingText = mainText p0 ∧
      (updateProgressDisplay run (.snapshot p) s).loadingTimeInfo = timeInfo p0) := by
  rw [update_not_processing run p s hp]
  have hd := stop_display { s with inFlight := s.inFlight.erase run }
  simp only [MonitorState.display, Prod.mk.injEq] at hd
  refine ⟨?_, ?_, ?_, hd.1, hd.2, ?_⟩
  · simp [stopGlobalProgressMonitoring, hrun, hh]
  · simp [stopGlobalProgressMonitoring, hrun, hh, clearInterval]
  · intro hc
    obtain ⟨_, _, hcase⟩ := hc
    rcases hcase with ⟨hnone, _⟩ | ⟨k, _, hsome, hone⟩
    · rw [hrun] at hnone; cases hnone
    · rw [hrun] at hsome
      cases hsome
      simp [stopGlobalProgressMonitoring, hrun, hh, clearInterval, liveIntervals, hone]
  · intro s0 run0 p0 hp0 hs
    have h0 := update_processing_display run0 p0 s0 hp0
    rw [← hs] at h0
    simp only [MonitorState.display, Prod.mk.injEq] at h0
    exact ⟨hd.1.trans h0.1, hd.2.trans h0.2⟩

/-- Witness for C3: start, a poll that renders step "读取" of file "a.zip" at 40%, then a poll
with `is_processing = false`. -/
theorem not_processing_stops_and_keeps_text_witness :
    (updateProgressDisplay 1
        (.snapshot ⟨false, none, none, none, none, none⟩)
        (updateProgressDisplay 1
          (.snapshot ⟨true, some "读取", some "a.zip", some 40, some "3秒", none⟩)
          (startGlobalProgressMonitoring (MonitorState.initial "" "")))).view
      = ⟨false, 0, none, "读取 - a.zip", "已用时: 3秒 | 进度: 40%"⟩ ∧
    (updateProgressDisplay 1
        (.snapshot ⟨false, none, none, none, none, none⟩)
        (updateProgressDisplay 1
          (.snapshot ⟨true, some "读取", some "a.zip", some 40, some "3秒", none⟩)
          (startGlobalProgressMonitoring (MonitorState.initial "" "")))).loadingText
      = (updateProgressDisplay 1
          (.snapshot ⟨true, some "读取", some "a.zip", some 40, some "3秒", none⟩)
          (startGlobalProgressMonitoring (MonitorState.initial "" ""))).loadingText :=
  ⟨by decide,
   (not_processing_stops_and_keeps_text
      (updateProgressDisplay 1
        (.snapshot ⟨true, some "读取", some "a.zip", some 40, some "3秒", none⟩)
        (startGlobalProgressMonitoring (MonitorState.initial "" "")))
      1 1 ⟨false, none, none, none, none, none⟩ rfl (by decide) rfl).2.2.2.1⟩


/-! ## Failure tolerance (C4) -/

theorem failed_retryCount (run : Nat) (s : MonitorState) :
    (updateProgressDisplay run .failed s).retryCount run = s.retryCount run + 1 := by
  simp only [updateProgressDisplay, pollFailed]
  split
  · simp
  · split <;> simp

theorem failed_display_quiet (run : Nat) (s : MonitorState) (h : s.retryCount run + 1 ≤ 3) :
    (updateProgressDisplay run .failed s).display = s.display := by
  simp [updateProgressDisplay, pollFailed, h, MonitorState.display]

theorem failed_display_marked (run : Nat) (s : MonitorState)
    (h : includes s.loadingText "获取进度信息" = true) :
    (updateProgressDisplay run .failed s).display = s.display := by
  simp only [updateProgressDisplay, pollFailed]
  split
  · rfl
  · simp [h, MonitorState.display]

theorem failed_display_fallback (run : Nat) (s : MonitorState) (h : 3 < s.retryCount run + 1)
    (hm : includes s.loadingText "获取进度信息" = false) :
    (updateProgressDisplay run .failed s).display = (fallbackText, fallbackTimeInfo) := by
  have h3 : ¬ s.retryCount run + 1 ≤ 3 := Nat.not_le.mpr h
  simp [updateProgressDisplay, pollFailed, h3, hm, MonitorState.display]

theorem failTimes_add (run m n : Nat) (s : MonitorState) :
    failTimes run (m + n) s = failTimes run n (failTimes run m s) := by
  induction m generalizing s with
  | zero => simp [failTimes]
  | succ m ih => rw [Nat.succ_add]; exact ih _

theorem failTimes_retryCount (run n : Nat) (s : MonitorState) :
    (failTimes run n s).retryCount run = s.retryCount run + n := by
  induction n generalizing s with
  | zero => rfl
  | succ n ih =>
    show (failTimes run n _).retryCount run = _
    rw [ih, failed_retryCount]; omega

theorem failTimes_quiet (run n : Nat) (s : MonitorState) (h : s.retryCount run + n ≤ 3) :
    (failTimes run n s).display = s.display := by
  induction n generalizing s with
  | zero => rfl
  | succ n ih =>
    show (failTimes run n _).display = _
    rw [ih _ (by rw [failed_retryCount]; omega)]
    exact failed_display_quiet run s (by omega)

theorem failTimes_marked (run n : Nat) (s : MonitorState)
    (h : includes s.loadingText "获取进度信息" = true) :
    (failTimes run n s).display = s.display := by
  induction n generalizing s with
  | zero => rfl
  | succ n ih =>
    have hd := failed_display_marked run s h
    show (failTimes run n _).display = _
    rw [ih _ (by
      simp only [MonitorState.display, Prod.mk.injEq] at hd
      rw [hd.1]; exact h)]
    exact hd

theorem fallbackText_marked : includes fallbackText "获取进度信息" = true := by decide

/-- C4 as stated fails: with the displayed text "获取进度信息" (rendered from the server's step
text) and failure counter 0, the fourth consecutive failure leaves the text as it is, so the main
text is not the generic fallback and the time line is not "连接后端服务...". -/
theorem fourth_failure_keeps_marked_text :
    markedState.retryCount 1 = 0 ∧
    (failTimes 1 4 markedState).loadingText = "获取进度信息" ∧
    (failTimes 1 4 markedState).loadingText ≠ fallbackText ∧
    (failTimes 1 4 markedState).loadingTimeInfo ≠ fallbackTimeInfo := by
  decide

/-- C4, amended: with failure counter 0, one, two and three consecutive failed polls leave both
texts as they were; the fourth puts the generic fallback text and the time line
"连接后端服务..." when the displayed text does not contain "获取进度信息", and leaves the display
as it was when it does; every further consecutive failure leaves the display unchanged. -/
theorem failure_tolerance (s : MonitorState) (run : Nat) (h0 : s.retryCount run = 0) :
    (∀ n, n ≤ 3 → (failTimes run n s).display = s.display) ∧
    (includes s.loadingText "获取进度信息" = false →
      (failTimes run 4 s).display = (fallbackText, fallbackTimeInfo)) ∧
    (includes s.loadingText "获取进度信息" = true →
      (failTimes run 4 s).display = s.display) ∧
    (∀ n, 4 ≤ n → (failTimes run n s).display = (failTimes run 4 s).display) := by
  have h3 : (failTimes run 3 s).display = s.display := failTimes_quiet run 3 s (by omega)
  have hr3 : (failTimes run 3 s).retryCount run = 3 := by rw [failTimes_retryCount, h0]
  have h4 : failTimes run 4 s = updateProgressDisplay run .failed (failTimes run 3 s) :=
    failTimes_add run 3 1 s
  have ht3 : (failTimes run 3 s).loadingText = s.loadingText := by
    simp only [MonitorState.display, Prod.mk.injEq] at h3
    exact h3.1
  have hfall : includes s.loadingText "获取进度信息" = false →
      (failTimes run 4 s).display = (fallbackText, fallbackTimeInfo) := by
    intro hm
    rw [h4]
    exact failed_display_fallback run _ (by omega) (by rw [ht3]; exact hm)
  have hkeep : includes s.loadingText "获取进度信息" = true →
      (failTimes run 4 s).display = s.display := by
    intro hm
    rw [h4, failed_display_marked run _ (by rw [ht3]; exact hm), h3]
  refine ⟨fun n hn => failTimes_quiet run n s (by omega), hfall, hkeep, ?_⟩
  intro n hn
  obtain ⟨k, rfl⟩ := Nat.exists_eq_add_of_le hn
  rw [failTimes_add]
  apply failTimes_marked
  cases hm : includes s.loadingText "获取进度信息" with
  | false =>
    have h := hfall hm
    simp only [MonitorState.display, Prod.mk.injEq] at h
    rw [h.1]; exact fallbackText_marked
  | true =>
    have h := hkeep hm
    simp only [MonitorState.display, Prod.mk.injEq] at h
    rw [h.1]; exact hm

/-- Witness for C4: a started monitor showing "正在启动筛选处理...". -/
theorem failure_tolerance_witness :
    (startGlobalProgressMonitoring
        (MonitorState.initial "正在启动筛选处理..." "准备中，请稍候...")).retryCount 1 = 0 ∧
    (failTimes 1 4 (startGlobalProgressMonitoring
        (MonitorState.initial "正在启动筛选处理..." "准备中，请稍候..."))).display
      = (fallbackText, fallbackTimeInfo) :=
  ⟨by decide,
   (failure_tolerance (startGlobalProgressMonitoring
      (MonitorState.initial "正在启动筛选处理..." "准备中，请稍候...")) 1 (by decide)).2.1
        (by decide)⟩


/-! ## The time line (C5) -/

theorem append_ne_empty (a b : String) (h : a ≠ "") : a ++ b ≠ "" := by
  intro hab
  apply h
  have hd := congrArg String.data hab
  rw [String.data_append] at hd
  exact String.ext (List.append_eq_nil.mp hd).1

theorem elapsedPart_ne (p : ProgressSnapshot) : elapsedPart p ≠ "" :=
  append_ne_empty _ _ (by decide)

theorem remainingPart_ne (p : ProgressSnapshot) : remainingPart p ≠ "" :=
  append_ne_empty _ _ (by decide)

theorem delimiter_data : delimiter.data = [' ', '|', ' '] := rfl

theorem delimiter_length : delimiter.length = 3 := rfl

theorem elapsedPart_data (p : ProgressSnapshot) :
    (elapsedPart p).data
      = '已' :: '用' :: '时' :: ':' :: ' ' :: (p.elapsed_time_formatted.getD "").data := by
  rw [elapsedPart, String.data_append]; rfl

theorem remainingPart_data (p : ProgressSnapshot) :
    (remainingPart p).data
      = '预' :: '计' :: '剩' :: '余' :: ':' :: ' ' :: (p.remaining_time_formatted.getD "").data := by
  rw [remainingPart, String.data_append]; rfl

theorem percentagePart_data (n : Int) :
    (percentagePart n).data = '进' :: '度' :: ':' :: ' ' :: ((toString n).data ++ ['%']) := by
  rw [percentagePart, String.data_append, String.data_append]; rfl

theorem elapsedPart_length (p : ProgressSnapshot) : 3 ≤ (elapsedPart p).length := by
  have h : ("已用时: " : String).length = 5 := rfl
  rw [elapsedPart, String.length_append, h]; omega

theorem remainingPart_length (p : ProgressSnapshot) : 3 ≤ (remainingPart p).length := by
  have h : ("预计剩余: " : String).length = 6 := rfl
  rw [remainingPart, String.length_append, h]; omega

theorem percentagePart_length (n : Int) : 3 ≤ (percentagePart n).length := by
  have h : ("进度: " : String).length = 4 := rfl
  rw [percentagePart, String.length_append, String.length_append, h]; omega

theorem isPrefixOf_head_ne (a b : Char) (l₁ l₂ : List Char) (h : a ≠ b) :
    (a :: l₁).isPrefixOf (b :: l₂) = false := by
  simp [List.isPrefixOf, h]

theorem endsWith_append (a b d : String) (hlen : d.length ≤ b.length)
    (h : endsWith (a ++ b) d = true) : endsWith b d = true := by
  unfold endsWith at *
  rw [List.isSuffixOf_iff_suffix] at *
  rw [String.data_append] at h
  exact List.suffix_of_suffix_length_le h (List.suffix_append _ _) hlen

theorem percentagePart_not_endsWith (n : Int) :
    endsWith (percentagePart n) delimiter = false := by
  simp only [endsWith, List.isSuffixOf, percentagePart_data, delimiter_data, List.reverse_cons,
    List.reverse_append, List.reverse_nil, List.nil_append, List.cons_append,
    List.singleton_append]
  exact isPrefixOf_head_ne _ _ _ _ (by decide)

theorem timeInfo_eq_intercalate (p : ProgressSnapshot) :
    timeInfo p = String.intercalate delimiter (presentParts p) := by
  unfold timeInfo addPercentage addRemaining addElapsed presentParts
  cases p.progress_percentage <;> cases truthyStr p.elapsed_time_formatted <;>
    cases truthyStr p.remaining_time_formatted <;>
    simp [String.intercalate, String.intercalate.go, elapsedPart_ne, remainingPart_ne,
      append_ne_empty]

theorem timeInfo_length (p : ProgressSnapshot) :
    (timeInfo p).length = ((presentParts p).map String.length).sum
      + delimiter.length * ((presentParts p).length - 1) := by
  unfold timeInfo addPercentage addRemaining addElapsed presentParts
  cases p.progress_percentage <;> cases truthyStr p.elapsed_time_formatted <;>
    cases truthyStr p.remaining_time_formatted <;>
    simp [elapsedPart_ne, remainingPart_ne, append_ne_empty, String.length_append,
      delimiter_length] <;> omega

theorem timeInfo_not_startsWith (p : ProgressSnapshot) :
    startsWith (timeInfo p) delimiter = false := by
  unfold timeInfo addPercentage addRemaining addElapsed
  cases p.progress_percentage <;> cases truthyStr p.elapsed_time_formatted <;>
    cases truthyStr p.remaining_time_formatted <;>
    simp [startsWith, elapsedPart_ne, remainingPart_ne, append_ne_empty, elapsedPart_data,
      remainingPart_data, percentagePart_data, delimiter_data, String.data_append] <;>
    exact isPrefixOf_head_ne _ _ _ _ (by decide)

theorem timeInfo_last (p : ProgressSnapshot) :
    (presentParts p = [] ∧ timeInfo p = "") ∨
    ∃ init last, timeInfo p = init ++ last ∧ (presentParts p).getLast? = some last ∧
      3 ≤ last.length ∧ (p.progress_percentage ≠ none → endsWith last delimiter = false) := by
  unfold timeInfo addPercentage addRemaining addElapsed presentParts
  cases hpc : p.progress_percentage with
  | some n =>
    right
    refine ⟨_, percentagePart n, rfl, ?_, percentagePart_length n,
      fun _ => percentagePart_not_endsWith n⟩
    simp
  | none =>
    cases hr : truthyStr p.remaining_time_formatted with
    | true =>
      right
      refine ⟨_, remainingPart p, rfl, ?_, remainingPart_length p, fun h => absurd rfl h⟩
      simp
    | false =>
      cases he : truthyStr p.elapsed_time_formatted with
      | true =>
        right
        refine ⟨_, elapsedPart p, rfl, ?_, elapsedPart_length p, fun h => absurd rfl h⟩
        simp
      | false => left; exact ⟨rfl, rfl⟩

theorem timeInfo_endsWith (p : ProgressSnapshot) (h : endsWith (timeInfo p) delimiter = true) :
    p.progress_percentage = none ∧
    ∃ last, (presentParts p).getLast? = some last ∧ endsWith last delimiter = true := by
  rcases timeInfo_last p with ⟨_, hempty⟩ | ⟨init, last, heq, hlast, hlen, hpc⟩
  · rw [hempty] at h
    exact absurd h (by decide)
  · rw [heq] at h
    have hl := endsWith_append init last delimiter (by rw [delimiter_length]; exact hlen) h
    refine ⟨?_, last, hlast, hl⟩
    by_contra hne
    rw [hpc hne] at hl
    cases hl

/-- C5 as stated fails: when the percentage is missing and the server's remaining-time text is
"x | ", the rendered time line is "预计剩余: x | ", which ends with the delimiter. -/
theorem time_line_can_end_with_delimiter :
    trailingSnapshot.is_processing = true ∧
    (updateProgressDisplay 1 (.snapshot trailingSnapshot)
      (startGlobalProgressMonitoring (MonitorState.initial "" ""))).loadingTimeInfo
      = "预计剩余: x | " ∧
    endsWith "预计剩余: x | " delimiter = true := by
  decide

/-- C5, amended: for a snapshot with `is_processing = true` the rendered time line is the present
parts (elapsed and remaining when non-empty, percentage when not `undefined`) in that order joined
by the delimiter: with k parts its length is the parts' lengths plus k-1 delimiters, it is empty
when no part is present, it never starts with the delimiter, and it ends with the delimiter only
when the percentage is missing and the last present part itself ends with the delimiter. -/
theorem time_line_joins_present_parts (p : ProgressSnapshot) (run : Nat) (s : MonitorState)
    (hp : p.is_processing = true) :
    (updateProgressDisplay run (.snapshot p) s).loadingTimeInfo
      = String.intercalate delimiter (presentParts p) ∧
    (updateProgressDisplay run (.snapshot p) s).loadingTimeInfo.length
      = ((presentParts p).map String.length).sum
        + delimiter.length * ((presentParts p).length - 1) ∧
    (presentParts p = [] → (updateProgressDisplay run (.snapshot p) s).loadingTimeInfo = "") ∧
    startsWith (updateProgressDisplay run (.snapshot p) s).loadingTimeInfo delimiter = false ∧
    (endsWith (updateProgressDisplay run (.snapshot p) s).loadingTimeInfo delimiter = true →
      p.progress_percentage = none ∧
      ∃ last, (presentParts p).getLast? = some last ∧ endsWith last delimiter = true) := by
  have hd := update_processing_display run p s hp
  simp only [MonitorState.display, Prod.mk.injEq] at hd
  rw [hd.2]
  refine ⟨timeInfo_eq_intercalate p, timeInfo_length p, ?_, timeInfo_not_startsWith p,
    timeInfo_endsWith p⟩
  intro hnil
  rw [timeInfo_eq_intercalate, hnil]
  rfl

/-- Witness for C5: all three parts present. -/
theorem time_line_joins_present_parts_witness :
    (updateProgressDisplay 1
        (.snapshot ⟨true, some "筛选", none, some 40, some "3秒", some "5秒"⟩)
        (startGlobalProgressMonitoring (MonitorState.initial "" ""))).loadingTimeInfo
      = String.intercalate delimiter ["已用时: 3秒", "预计剩余: 5秒", "进度: 40%"] :=
  (time_line_joins_present_parts ⟨true, some "筛选", none, some 40, some "3秒", some "5秒"⟩ 1
    (startGlobalProgressMonitoring (MonitorState.initial "" "")) rfl).1

/-! ## The filter configuration (C6, C7) -/

theorem getProp_setProp {α : Type} (o : List (String × α)) (k k' : String) (v : α) :
    getProp (setProp o k v) k' = if k' = k then some v else getProp o k' := by
  induction o with
  | nil =>
    by_cases h : k' = k
    · simp [setProp, getProp, h]
    · have h2 : ¬ k = k' := fun e => h e.symm
      simp [setProp, getProp, h, h2]
  | cons kv rest ih =>
    obtain ⟨a, b⟩ := kv
    by_cases hak : a = k
    · by_cases h : k' = k
      · simp [setProp, getProp, hak, h]
      · have h2 : ¬ k = k' := fun e => h e.symm
        simp [setProp, getProp, hak, h, h2]
    · by_cases hak' : a = k'
      · have h : ¬ k' = k := fun e => hak (hak'.trans e)
        simp [setProp, getProp, hak, hak', h]
      · simp [setProp, getProp, hak, hak', ih]

theorem getProp_addOptional (f : FilterForm) (filters : List (String × FilterEntry))
    (entry : String × FilterDef) (k : String) :
    getProp (addOptional f filters entry) k
      = if fieldOf entry = k ∧ toggleChecked f k = true then some (optionalEntry f k)
        else getProp filters k := by
  unfold addOptional
  by_cases ht : toggleChecked f (fieldOf entry) = true
  · rw [if_pos ht, getProp_setProp]
    by_cases hk : k = fieldOf entry
    · subst hk; simp [ht]
    · have hk2 : ¬ fieldOf entry = k := fun e => hk e.symm
      simp [hk, hk2]
  · rw [if_neg ht]
    by_cases hk : fieldOf entry = k
    · rw [hk] at ht; simp [ht]
    · simp [hk]

theorem getProp_foldl_addOptional (f : FilterForm) (availableFilters : List (String × FilterDef))
    (filters : List (String × FilterEntry)) (k : String) :
    getProp (availableFilters.foldl (addOptional f) filters) k
      = if (∃ entry ∈ availableFilters, fieldOf entry = k) ∧ toggleChecked f k = true
        then some (optionalEntry f k) else getProp filters k := by
  induction availableFilters generalizing filters with
  | nil => simp
  | cons entry rest ih =>
    rw [List.foldl_cons, ih, getProp_addOptional]
    by_cases ht : toggleChecked f k = true
    · by_cases hr : ∃ e ∈ rest, fieldOf e = k
      · have hall : ∃ e ∈ entry :: rest, fieldOf e = k := by
          obtain ⟨e, he, hk⟩ := hr
          exact ⟨e, List.mem_cons_of_mem _ he, hk⟩
        simp only [hr, hall, ht, and_self, if_true]
      · by_cases he : fieldOf entry = k
        · have hall : ∃ e ∈ entry :: rest, fieldOf e = k := ⟨entry, List.mem_cons_self _ _, he⟩
          simp only [hr, hall, he, ht, and_self, if_true, false_and, if_false]
        · have hall : ¬ ∃ e ∈ entry :: rest, fieldOf e = k := by
            rintro ⟨e, hmem, hk⟩
            rcases List.mem_cons.mp hmem with rfl | hmem
            · exact he hk
            · exact hr ⟨e, hmem, hk⟩
          simp only [hr, hall, he, false_and, if_false]
    · have hf : toggleChecked f k = false := by simpa using ht
      simp [hf]

theorem getProp_mandatoryFilters (f : FilterForm) :
    getProp (mandatoryFilters f) "date_range" = some (dateRangeEntry f) ∧
    getProp (mandatoryFilters f) "farm_id" = some (farmIdEntry f) ∧
    getProp (mandatoryFilters f) "parity" = some (parityEntry f) ∧
    getProp (mandatoryFilters f) "protein_pct" = some (proteinEntry f) := by
  refine ⟨?_, ?_, ?_, ?_⟩ <;> simp [mandatoryFilters, setProp, getProp]

theorem mandatoryFilters_required (f : FilterForm) (k : String) (e : FilterEntry)
    (h : getProp (mandatoryFilters f) k = some e) : e.required = true := by
  rw [mandatoryFilters, getProp_setProp, getProp_setProp, getProp_setProp, getProp_setProp] at h
  repeat' split at h
  all_goals first
    | (cases h; rfl)
    | (cases h)

/-- C6, evaluated on the code: with `availableFilters = {parity: {}}` and a checked control
`enable_parity` on the page, lines 1184-1190 write the mandatory entry under `parity`, with
`required = true` and the bounds of the form, and line 1210 then replaces it: the returned
configuration holds under `parity` the optional entry, with `required = false` and neither
bound, so no entry with `required = true` is left under that key. -/
theorem optional_filter_replaces_mandatory_entry :
    getProp (mandatoryFilters collidingForm) "parity" = some (parityEntry collidingForm) ∧
    (parityEntry collidingForm).required = true ∧
    getProp (buildFilterConfig collidingForm [("parity", ⟨none⟩)]) "parity"
      = some { field := "parity", enabled := true, required := false, min := none,
               max := none } ∧
    getProp (buildFilterConfig collidingForm [("parity", ⟨none⟩)]) "parity"
      ≠ some (parityEntry collidingForm) ∧
    ¬ ∃ e, getProp (buildFilterConfig collidingForm [("parity", ⟨none⟩)]) "parity" = some e ∧
      e.required = true := by
  have h : getProp (buildFilterConfig collidingForm [("parity", ⟨none⟩)]) "parity"
        = some { field := "parity", enabled := true, required := false, min := none,
                 max := none } := by
    decide
  refine ⟨by decide, rfl, h, by decide, ?_⟩
  rintro ⟨e, he, hreq⟩
  rw [h] at he
  cases he
  cases hreq

/-- C7: an optional filter of `availableFilters`, keyed by `config.field` or else by its name,
has an entry with `required = false` in the result of `buildFilterConfig` if and only if the
control `enable_<field>` exists and is checked; the entry is then the optional entry of that
field. -/
theorem optional_entry_iff_toggle_checked (f : FilterForm)
    (availableFilters : List (String × FilterDef)) (filterName : String) (config : FilterDef)
    (hmem : (filterName, config) ∈ availableFilters) :
    ((∃ e, getProp (buildFilterConfig f availableFilters) (fieldOf (filterName, config)) = some e
        ∧ e.required = false) ↔
      ∃ checkbox, f.getElementById ("enable_" ++ fieldOf (filterName, config)) = some checkbox
        ∧ checkbox.checked = true) ∧
    ((∃ checkbox, f.getElementById ("enable_" ++ fieldOf (filterName, config)) = some checkbox
        ∧ checkbox.checked = true) →
      getProp (buildFilterConfig f availableFilters) (fieldOf (filterName, config))
        = some (optionalEntry f (fieldOf (filterName, config)))) := by
  have htoggle : (∃ checkbox,
      f.getElementById ("enable_" ++ fieldOf (filterName, config)) = some checkbox
        ∧ checkbox.checked = true) ↔ toggleChecked f (fieldOf (filterName, config)) = true := by
    unfold toggleChecked
    cases f.getElementById ("enable_" ++ fieldOf (filterName, config)) with
    | none => simp
    | some c => simp
  rw [htoggle]
  have hex : ∃ entry ∈ availableFilters, fieldOf entry = fieldOf (filterName, config) :=
    ⟨_, hmem, rfl⟩
  have hb : getProp (buildFilterConfig f availableFilters) (fieldOf (filterName, config))
      = if (∃ entry ∈ availableFilters, fieldOf entry = fieldOf (filterName, config))
            ∧ toggleChecked f (fieldOf (filterName, config)) = true
        then some (optionalEntry f (fieldOf (filterName, config)))
        else getProp (mandatoryFilters f) (fieldOf (filterName, config)) :=
    getProp_foldl_addOptional f availableFilters (mandatoryFilters f) _
  by_cases ht : toggleChecked f (fieldOf (filterName, config)) = true
  · rw [if_pos ⟨hex, ht⟩] at hb
    exact ⟨⟨fun _ => ht, fun _ => ⟨_, hb, rfl⟩⟩, fun _ => hb⟩
  · rw [if_neg (fun h => ht h.2)] at hb
    refine ⟨⟨?_, fun h => absurd h ht⟩, fun h => absurd h ht⟩
    rintro ⟨e, he, hreq⟩
    rw [hb] at he
    rw [mandatoryFilters_required f _ e he] at hreq
    cases hreq

/-- Witness for C7: the filter `fat` (field `fat_pct`) whose toggle is checked. -/
theorem optional_entry_iff_toggle_checked_witness :
    ("fat", (⟨some "fat_pct"⟩ : FilterDef)) ∈ sampleFilters ∧
    getProp (buildFilterConfig sampleForm sampleFilters) "fat_pct"
      = some { field := "fat_pct", enabled := true, required := false,
               min := some (.fin 28 10), max := none } :=
  ⟨by decide,
   (optional_entry_iff_toggle_checked sampleForm sampleFilters "fat" ⟨some "fat_pct"⟩
      (by decide)).2 ⟨⟨"on", true⟩, by decide, rfl⟩⟩

/-! ## The result presenter (C8, C9, C10) -/

/-- C8, evaluated on the code: for the legacy result `{total_rows: 0, filtered_rows: 0}` the
ratio card reads "NaN%", and for `{total_rows: 0, filtered_rows: 5}` it reads "Infinity%"; for
every legacy result with `total_rows = 0` the card reads "NaN%", "Infinity%" or "-Infinity%": the
division of line 1302 has no guard against a zero denominator. -/
theorem legacy_ratio_zero_total_unguarded :
    ratioCardText (displayResults legacyZero clearedPage) = some "NaN%" ∧
    ratioCardText (displayResults legacyZeroTotal clearedPage) = some "Infinity%" ∧
    ∀ (filtered : Int) (url : Option String) (page : ResultPage),
      ratioCardText (displayResults
          { total_rows := some 0, filtered_rows := some filtered, download_url := url } page)
        = some (if filtered = 0 then "NaN%"
                else if filtered < 0 then "-Infinity%" else "Infinity%") := by
  refine ⟨by decide, by decide, ?_⟩
  intro filtered url page
  have hcards : (displayResults
      { total_rows := some 0, filtered_rows := some filtered, download_url := url }
      page).resultInfo
      = legacyCards { total_rows := some 0, filtered_rows := some filtered,
                      download_url := url } := by
    unfold displayResults
    simp only [ne_eq, not_true_eq_false, if_false]
    split <;> rfl
  rw [ratioCardText, hcards]
  by_cases h0 : filtered = 0
  · simp [legacyCards, legacyRatioText, JSNum.ofField, JSNum.div, JSNum.mul, JSNum.toFixed1, h0]
  · by_cases hneg : filtered < 0
    · simp [legacyCards, legacyRatioText, JSNum.ofField, JSNum.div, JSNum.mul, JSNum.toFixed1,
        h0, hneg]
    · simp [legacyCards, legacyRatioText, JSNum.ofField, JSNum.div, JSNum.mul, JSNum.toFixed1,
        h0, hneg]

/-- C9: when `original_cow_count` is not `undefined` (0 included), `displayResults` renders the
cards of the current shape, whose numbers are the four server values as a template literal
prints them, the rate followed by "%"; nothing depends on `total_rows` or `filtered_rows`. -/
theorem current_shape_rendered_verbatim (result : JobResult) (page : ResultPage)
    (h : result.original_cow_count ≠ none) :
    (displayResults result page).resultInfo = currentCards result ∧
    (displayResults result page).resultInfo.map Card.value
      = [template result.original_cow_count, template result.range_cow_count,
         template result.final_cow_count, template result.filter_rate ++ "%"] ∧
    (∀ n : Int, result.filter_rate = some n →
      ratioCardText (displayResults result page) = some (toString n ++ "%")) ∧
    (∀ total filtered : Option Int,
      displayResults { result with total_rows := total, filtered_rows := filtered } page
        = displayResults result page) := by
  have hinfo : (displayResults result page).resultInfo = currentCards result := by
    unfold displayResults
    simp only [h, ne_eq, not_false_eq_true, if_true]
    split <;> rfl
  refine ⟨hinfo, ?_, ?_, ?_⟩
  · rw [hinfo]; rfl
  · intro n hn
    rw [ratioCardText, hinfo]
    simp [currentCards, hn, template]
  · intro total filtered
    unfold displayResults
    simp only [h, ne_eq, not_false_eq_true, if_true]
    rfl

/-- Witness for C9: `{original_cow_count:100, range_cow_count:60, final_cow_count:30,
filter_rate:50}` renders 100, 60, 30 and "50%". -/
theorem current_shape_rendered_verbatim_witness :
    currentSample.original_cow_count ≠ none ∧
    (displayResults currentSample clearedPage).resultInfo.map Card.value
      = ["100", "60", "30", "50%"] :=
  ⟨by decide, (current_shape_rendered_verbatim currentSample clearedPage (by decide)).2.1⟩

/-- C10 as stated fails: on a page where an earlier download link is still shown, a result
without `download_url` leaves the download area shown, with the old link. -/
theorem download_area_stays_shown :
    legacySample.download_url = none ∧
    (displayResults legacySample shownPage).downloadAreaDisplay = "block" ∧
    (displayResults legacySample shownPage).downloadHref = "/api/download/old.xlsx" := by
  decide

/-- C10, amended: after `displayResults`, if `download_url` is present and non-empty the download
button's href is that URL and the download area is shown; otherwise the download area and the
href are as they were before the call, which is hidden, with href "#", whenever
`clearPreviousResults` ran right before. -/
theorem download_area_after_display (result : JobResult) (page : ResultPage) :
    (∀ url, result.download_url = some url → url ≠ "" →
      (displayResults result page).downloadHref = url ∧
      (displayResults result page).downloadAreaDisplay = "block") ∧
    (truthyStr result.download_url = false →
      (displayResults result page).downloadAreaDisplay = page.downloadAreaDisplay ∧
      (displayResults result page).downloadHref = page.downloadHref) ∧
    (truthyStr result.download_url = false →
      (displayResults result (clearPreviousResults page)).downloadAreaDisplay = "none" ∧
      (displayResults result (clearPreviousResults page)).downloadHref = "#") := by
  have hkeep : ∀ pg : ResultPage, truthyStr result.download_url = false →
      (displayResults result pg).downloadAreaDisplay = pg.downloadAreaDisplay ∧
      (displayResults result pg).downloadHref = pg.downloadHref := by
    intro pg hf
    unfold displayResults
    simp only [hf, Bool.false_eq_true, if_false]
    split <;> exact ⟨rfl, rfl⟩
  refine ⟨?_, hkeep page, fun hf => hkeep (clearPreviousResults page) hf⟩
  intro url hurl hne
  have ht : truthyStr result.download_url = true := by simp [truthyStr, hurl, hne]
  unfold displayResults
  simp only [ht, if_true]
  simp [hurl]

/-- Witness for C10: a result with a download link on a cleared page, and one without. -/
theorem download_area_after_display_witness :
    (displayResults linkedSample clearedPage).downloadHref = "/api/download/r.xlsx" ∧
    (displayResults legacySample (clearPreviousResults shownPage)).downloadAreaDisplay
      = "none" :=
  ⟨((download_area_after_display linkedSample clearedPage).1 "/api/download/r.xlsx" rfl
      (by decide)).1,
   ((download_area_after_display legacySample shownPage).2.2 (by decide)).1⟩

/-! ## The main text (C17) -/

/-- C17 as stated fails: for a running job whose `current_step` is the empty string the rendered
main text is the default "初始化", not `current_step`. -/
theorem empty_step_renders_default :
    emptyStepSnapshot.is_processing = true ∧
    emptyStepSnapshot.current_step = some "" ∧
    (updateProgressDisplay 1 (.snapshot emptyStepSnapshot)
      (startGlobalProgressMonitoring (MonitorState.initial "" ""))).loadingText = "初始化" := by
  decide

/-- C17, amended: for a snapshot with `is_processing = true` the rendered main text is the step
text, which is `current_step` or the default "初始化" when `current_step` is missing or empty,
followed by " - " and `current_file` when `current_file` is present and non-empty, and exactly
the step text otherwise. -/
theorem main_text_rendered (p : ProgressSnapshot) (run : Nat) (s : MonitorState)
    (hp : p.is_processing = true) :
    (∀ step file, p.current_step = some step → step ≠ "" → p.current_file = some file →
      file ≠ "" →
      (updateProgressDisplay run (.snapshot p) s).loadingText = step ++ " - " ++ file) ∧
    (∀ step, p.current_step = some step → step ≠ "" →
      (p.current_file = none ∨ p.current_file = some "") →
      (updateProgressDisplay run (.snapshot p) s).loadingText = step) ∧
    (∀ file, (p.current_step = none ∨ p.current_step = some "") → p.current_file = some file →
      file ≠ "" →
      (updateProgressDisplay run (.snapshot p) s).loadingText = "初始化" ++ " - " ++ file) ∧
    ((p.current_step = none ∨ p.current_step = some "") →
      (p.current_file = none ∨ p.current_file = some "") →
      (updateProgressDisplay run (.snapshot p) s).loadingText = "初始化") := by
  have hd := update_processing_display run p s hp
  simp only [MonitorState.display, Prod.mk.injEq] at hd
  rw [hd.1]
  refine ⟨?_, ?_, ?_, ?_⟩
  · intro step file hs hne hf hfne
    simp [mainText, orDefault, truthyStr, hs, hne, hf, hfne]
  · intro step hs hne hf
    rcases hf with hf | hf <;> simp [mainText, orDefault, truthyStr, hs, hne, hf]
  · intro file hs hf hfne
    rcases hs with hs | hs <;> simp [mainText, orDefault, truthyStr, hs, hf, hfne]
  · intro hs hf
    rcases hs with hs | hs <;> rcases hf with hf | hf <;>
      simp [mainText, orDefault, truthyStr, hs, hf]

/-- Witness for C17: step "读取" of file "a.zip". -/
theorem main_text_rendered_witness :
    (updateProgressDisplay 1
        (.snapshot ⟨true, some "读取", some "a.zip", none, none, none⟩)
        (startGlobalProgressMonitoring (MonitorState.initial "" ""))).loadingText
      = "读取" ++ " - " ++ "a.zip" :=
  (main_text_rendered ⟨true, some "读取", some "a.zip", none, none, none⟩ 1
    (startGlobalProgressMonitoring (MonitorState.initial "" "")) rfl).1
      "读取" "a.zip" rfl (by decide) rfl (by decide)

/-! ## The failure counter over a run (C18) -/

theorem stop_retryCount (s : MonitorState) :
    (stopGlobalProgressMonitoring s).retryCount = s.retryCount := by
  unfold stopGlobalProgressMonitoring
  cases s.globalProgressInterval with
  | none => rfl
  | some h =>
    by_cases hh : h = 0
    · simp [hh]
    · simp [hh, clearInterval]

theorem processing_retryCount (run : Nat) (p : ProgressSnapshot) (s : MonitorState)
    (hp : p.is_processing = true) :
    (updateProgressDisplay run (.snapshot p) s).retryCount run = 0 := by
  simp [updateProgressDisplay, hp]

theorem not_processing_retryCount (run : Nat) (p : ProgressSnapshot) (s : MonitorState)
    (hp : p.is_processing = false) :
    (updateProgressDisplay run (.snapshot p) s).retryCount run = s.retryCount run := by
  rw [update_not_processing run p s hp, stop_retryCount]

theorem window_zero (l : List PollOutcome) (n : Nat) : window l 0 n = l.take n := rfl

theorem window_cons (o : PollOutcome) (l : List PollOutcome) (i n : Nat) :
    window (o :: l) (i + 1) n = window l i n := rfl

theorem noFourFailures_tail (o : PollOutcome) (l : List PollOutcome)
    (h : NoFourFailures (o :: l)) : NoFourFailures l := by
  intro i hi n hn hw
  have h1 := h (i + 1) (by simp; omega) n (by simp; omega)
  rw [window_cons] at h1
  exact h1 hw

theorem runPolls_cons (run : Nat) (o : PollOutcome) (l : List PollOutcome) (s : MonitorState) :
    runPolls run (o :: l) s = runPolls run l (updateProgressDisplay run o s) := rfl

theorem quiet_run (run : Nat) (l : List PollOutcome) :
    ∀ (s : MonitorState) (c : Nat), s.retryCount run = c → c ≤ 3 →
      (∀ n ≤ l.length, (∀ o ∈ l.take n, o.isProcessing = false) →
        c + (l.take n).countP PollOutcome.isFailure ≤ 3) →
      NoFourFailures l →
      ∀ k ≤ l.length,
        (runPolls run (l.take k) s).retryCount run ≤ 3 ∧
        (l.get? k = some .failed →
          (runPolls run (l.take (k + 1)) s).display = (runPolls run (l.take k) s).display) := by
  induction l with
  | nil =>
    intro s c hc hc3 _ _ k hk
    have hk0 : k = 0 := by simpa using hk
    subst hk0
    exact ⟨by simp [runPolls, hc, hc3], by simp⟩
  | cons o rest ih =>
    intro s c hc hc3 hbudget hno k hk
    have hfirst : o = .failed → c + 1 ≤ 3 := by
      intro ho
      have h1 := hbudget 1 (by simp) (by simp [ho, PollOutcome.isProcessing])
      simpa [ho, PollOutcome.isFailure] using h1
    cases k with
    | zero =>
      refine ⟨by simp [runPolls, hc, hc3], ?_⟩
      intro hget
      have ho : o = .failed := by simpa using hget
      subst ho
      simp only [List.take_succ_cons, List.take_zero, runPolls_cons]
      exact failed_display_quiet run s (by rw [hc]; exact hfirst rfl)
    | succ k =>
      have hk' : k ≤ rest.length := by simpa using hk
      simp only [List.take_succ_cons, runPolls_cons, List.get?_cons_succ]
      cases o with
      | failed =>
        refine ih _ (c + 1) (by rw [failed_retryCount, hc]) (hfirst rfl) ?_
          (noFourFailures_tail _ _ hno) k hk'
        intro n hn hw
        have h1 := hbudget (n + 1) (by simp; omega) (by
          intro o ho
          rcases List.mem_cons.mp (by simpa using ho) with rfl | ho
          · rfl
          · exact hw o ho)
        simp only [List.take_succ_cons, List.countP_cons, PollOutcome.isFailure, if_true] at h1
        omega
      | snapshot p =>
        cases hp : p.is_processing with
        | true =>
          refine ih _ 0 (processing_retryCount run p s hp) (by omega) ?_
            (noFourFailures_tail _ _ hno) k hk'
          intro n hn hw
          have h1 := noFourFailures_tail _ _ hno 0 (Nat.zero_le _) n hn
            (by rw [window_zero]; exact hw)
          rw [window_zero] at h1
          omega
        | false =>
          refine ih _ c (by rw [not_processing_retryCount run p s hp, hc]) hc3 ?_
            (noFourFailures_tail _ _ hno) k hk'
          intro n hn hw
          have h1 := hbudget (n + 1) (by simp; omega) (by
            intro o ho
            rcases List.mem_cons.mp (by simpa using ho) with rfl | ho
            · exact hp
            · exact hw o ho)
          simpa [List.take_succ_cons, List.countP_cons, PollOutcome.isFailure] using h1

/-- C18: a successful poll with `is_processing = true` sets the failure counter of its closure
to 0; and when a closure starts with counter 0 and its polls settle in a sequence with no four
failures without such a poll in between, the counter is at most 3 after every poll and every
failed poll leaves both displayed texts as they were (the fallback is never written). -/
theorem counter_stays_within_three (run : Nat) (s : MonitorState) (outcomes : List PollOutcome)
    (h0 : s.retryCount run = 0) (h : NoFourFailures outcomes) :
    (∀ (p : ProgressSnapshot) (st : MonitorState), p.is_processing = true →
      (updateProgressDisplay run (.snapshot p) st).retryCount run = 0) ∧
    (∀ k ≤ outcomes.length,
      (runPolls run (outcomes.take k) s).retryCount run ≤ 3 ∧
      (outcomes.get? k = some .failed →
        (runPolls run (outcomes.take (k + 1)) s).display
          = (runPolls run (outcomes.take k) s).display)) := by
  refine ⟨fun p st hp => processing_retryCount run p st hp, ?_⟩
  refine quiet_run run outcomes s 0 h0 (by omega) ?_ h
  intro n hn hw
  have h1 := h 0 (Nat.zero_le _) n hn (by rw [window_zero]; exact hw)
  rw [window_zero] at h1
  omega

/-- Witness for C18: three failures, a successful poll, three failures. -/
theorem counter_stays_within_three_witness :
    NoFourFailures quietOutcomes ∧
    (runPolls 1 quietOutcomes
      (startGlobalProgressMonitoring (MonitorState.initial "a" "b"))).retryCount 1 ≤ 3 :=
  ⟨by decide,
   ((counter_stays_within_three 1 (startGlobalProgressMonitoring (MonitorState.initial "a" "b"))
      quietOutcomes (by decide) (by decide)).2 7 (by decide)).1⟩

/-! ## Minimum and maximum of an optional filter (C19) -/

/-- C19: for every declared optional filter whose toggle is checked, the entry under its field
has `required = false`; its `min` is `parseFloat` of the value of the input `min_<field>` when
that input exists and `undefined` (not 0) when it does not, and likewise its `max`. -/
theorem optional_min_max (f : FilterForm) (availableFilters : List (String × FilterDef))
    (filterName : String) (config : FilterDef)
    (hmem : (filterName, config) ∈ availableFilters)
    (hchecked : toggleChecked f (fieldOf (filterName, config)) = true) :
    ∃ e, getProp (buildFilterConfig f availableFilters) (fieldOf (filterName, config)) = some e ∧
      e.required = false ∧
      (∀ minInput, f.getElementById ("min_" ++ fieldOf (filterName, config)) = some minInput →
        e.min = some (parseFloat minInput.value)) ∧
      (f.getElementById ("min_" ++ fieldOf (filterName, config)) = none →
        e.min = none ∧ e.min ≠ some (.fin 0 1)) ∧
      (∀ maxInput, f.getElementById ("max_" ++ fieldOf (filterName, config)) = some maxInput →
        e.max = some (parseFloat maxInput.value)) ∧
      (f.getElementById ("max_" ++ fieldOf (filterName, config)) = none →
        e.max = none ∧ e.max ≠ some (.fin 0 1)) := by
  have hb : getProp (buildFilterConfig f availableFilters) (fieldOf (filterName, config))
      = some (optionalEntry f (fieldOf (filterName, config))) := by
    have h := getProp_foldl_addOptional f availableFilters (mandatoryFilters f)
      (fieldOf (filterName, config))
    rw [if_pos ⟨⟨_, hmem, rfl⟩, hchecked⟩] at h
    exact h
  refine ⟨_, hb, rfl, ?_, ?_, ?_, ?_⟩
  · intro minInput hmin
    simp [optionalEntry, hmin]
  · intro hmin
    simp [optionalEntry, hmin]
  · intro maxInput hmax
    simp [optionalEntry, hmax]
  · intro hmax
    simp [optionalEntry, hmax]

/-- Witness for C19: `fat_pct` has the input `min_fat_pct` with the text "2.8" and no input
`max_fat_pct`. -/
theorem optional_min_max_witness :
    toggleChecked sampleForm "fat_pct" = true ∧
    ∃ e, getProp (buildFilterConfig sampleForm sampleFilters) "fat_pct" = some e ∧
      e.min = some (.fin 28 10) ∧ e.max = none := by
  refine ⟨by decide, ?_⟩
  obtain ⟨e, he, _, hmin, _, _, hmax⟩ :=
    optional_min_max sampleForm sampleFilters "fat" ⟨some "fat_pct"⟩ (by decide) (by decide)
  exact ⟨e, he, hmin ⟨"2.8", false⟩ (by decide), (hmax (by decide)).1⟩

/-! ## Error messages of the batch submission (C11) -/

theorem tryCatch_notOk_alert (p : Page) (status : Nat) (detail : Option String) :
    (handleBatchFilterSubmit_settled (.notOk status detail) p).alertContainer
      = [⟨orDefault detail batchFallback, "danger"⟩] := by
  simp only [handleBatchFilterSubmit_settled, finallyBlock, showLoading, tryCatch, catchBlock,
    showAlert]
  rfl

theorem tryCatch_failure_alert (p : Page) (message : Option String) (result : JobResult) :
    (handleBatchFilterSubmit_settled (.okBody false message result) p).alertContainer
      = [⟨orDefault message batchFallback, "danger"⟩] := by
  simp only [handleBatchFilterSubmit_settled, finallyBlock, showLoading, tryCatch, catchBlock,
    showAlert]
  rfl

theorem orDefault_of_ne (s d : String) (h : s ≠ "") : orDefault (some s) d = s := by
  simp [orDefault, h]

theorem orDefault_of_empty (x : Option String) (d : String) (h : x = none ∨ x = some "") :
    orDefault x d = d := by
  rcases h with h | h <;> simp [orDefault, h]

theorem orDefault_batchFallback_ne (x : Option String) : orDefault x batchFallback ≠ "" := by
  cases x with
  | none => simp only [orDefault]; decide
  | some s =>
    by_cases h : s = ""
    · simp only [orDefault, h, if_true]; decide
    · simp only [orDefault, h, if_false]; exact h

/-- C11 as stated fails: a response with status 500 and body `{detail: ""}` surfaces the generic
message "批量筛选失败", not the detail. -/
theorem empty_detail_surfaces_fallback :
    (handleBatchFilterSubmit_settled (.notOk 500 (some "")) Page.initial).alertContainer
      = [⟨"批量筛选失败", "danger"⟩] ∧
    ("批量筛选失败" : String) ≠ "" := by
  decide

/-- C11, amended: after a batch submission, a non-OK response with JSON body `{detail: d}`
surfaces `d` when `d` is non-empty and the generic message "批量筛选失败" when `d` is empty or
missing; an OK response with `success = false` surfaces the body's message when it is non-empty
and the generic message otherwise; in both cases the surfaced message is not the empty
string. -/
theorem batch_error_message (p : Page) (status : Nat) (result : JobResult) :
    (∀ d, d ≠ "" →
      (handleBatchFilterSubmit_settled (.notOk status (some d)) p).alertContainer
        = [⟨d, "danger"⟩]) ∧
    (∀ detail, (detail = none ∨ detail = some "") →
      (handleBatchFilterSubmit_settled (.notOk status detail) p).alertContainer
        = [⟨batchFallback, "danger"⟩]) ∧
    (∀ m, m ≠ "" →
      (handleBatchFilterSubmit_settled (.okBody false (some m) result) p).alertContainer
        = [⟨m, "danger"⟩]) ∧
    (∀ message, (message = none ∨ message = some "") →
      (handleBatchFilterSubmit_settled (.okBody false message result) p).alertContainer
        = [⟨batchFallback, "danger"⟩]) ∧
    (∀ detail, ∃ a,
      (handleBatchFilterSubmit_settled (.notOk status detail) p).alertContainer = [a] ∧
      a.message ≠ "") ∧
    (∀ message, ∃ a,
      (handleBatchFilterSubmit_settled (.okBody false message result) p).alertContainer = [a] ∧
      a.message ≠ "") := by
  refine ⟨?_, ?_, ?_, ?_, ?_, ?_⟩
  · intro d hd
    rw [tryCatch_notOk_alert, orDefault_of_ne d _ hd]
  · intro detail hd
    rw [tryCatch_notOk_alert, orDefault_of_empty detail _ hd]
  · intro m hm
    rw [tryCatch_failure_alert, orDefault_of_ne m _ hm]
  · intro message hm
    rw [tryCatch_failure_alert, orDefault_of_empty message _ hm]
  · intro detail
    exact ⟨_, tryCatch_notOk_alert p status detail, orDefault_batchFallback_ne detail⟩
  · intro message
    exact ⟨_, tryCatch_failure_alert p message result, orDefault_batchFallback_ne message⟩

/-- Witness for C11: status 500 with body `{detail: "disk full"}` surfaces "disk full". -/
theorem batch_error_message_witness :
    (handleBatchFilterSubmit_settled (.notOk 500 (some "disk full")) Page.initial).alertContainer
      = [⟨"disk full", "danger"⟩] :=
  (batch_error_message Page.initial 500 legacySample).1 "disk full" (by decide)

/-! ## Cleanup on every exit path (C12) -/

theorem stop_stops {s : MonitorState} (h : s.Consistent) :
    (stopGlobalProgressMonitoring s).globalProgressInterval = none ∧
    (stopGlobalProgressMonitoring s).intervals = [] := by
  obtain ⟨_, _, hcase⟩ := h
  rcases hcase with ⟨hnone, hnil⟩ | ⟨k, hk, hsome, hone⟩
  · simp [stopGlobalProgressMonitoring, hnone, hnil]
  · have hk0 : k ≠ 0 := Nat.pos_iff_ne_zero.mp hk
    simp [stopGlobalProgressMonitoring, clearInterval, hsome, hone, hk0]

theorem showAlert_consistent (message kind : String) {p : Page} (h : p.monitor.Consistent) :
    (showAlert message kind p).monitor.Consistent :=
  consistent_apply .otherTimer h

theorem catchBlock_monitor (message : String) (p : Page) :
    (catchBlock message p).monitor
      = stopGlobalProgressMonitoring (showAlert message "danger" p).monitor := rfl

theorem successBranch_monitor (message : Option String) (result : JobResult) (p : Page) :
    (successBranch message result p).monitor
      = stopGlobalProgressMonitoring
          (showAlert (message.getD "undefined") "success" p).monitor := rfl

theorem tryCatch_monitor (r : BatchResponse) (p : Page) :
    ∃ message kind, (tryCatch r p).monitor
      = stopGlobalProgressMonitoring (showAlert message kind p).monitor := by
  cases r with
  | rejected m => exact ⟨_, _, catchBlock_monitor _ _⟩
  | invalidBody m => exact ⟨_, _, catchBlock_monitor _ _⟩
  | notOk status detail => exact ⟨_, _, catchBlock_monitor _ _⟩
  | okBody success message result =>
    cases success with
    | true => exact ⟨_, _, successBranch_monitor _ _ _⟩
    | false => exact ⟨_, _, catchBlock_monitor _ _⟩

theorem finallyBlock_monitor (p : Page) :
    (finallyBlock p).monitor = stopGlobalProgressMonitoring p.monitor := rfl

theorem finallyBlock_overlay (p : Page) : (finallyBlock p).loadingOverlayDisplay = "none" := rfl

/-- C12: when `handleBatchFilterSubmit` completes, whatever the request settled with (success,
non-OK status, `success: false`, a rejected request or body), the overlay is hidden, the handle
is `null` and no interval is live, and the stop of the `finally` block changes nothing after the
stop of the `try` or `catch` block; the same holds when an exception is thrown from any state
`q` of the `try` block. -/
theorem cleanup_on_every_exit (p : Page) (r : BatchResponse) (hc : p.monitor.Consistent) :
    (handleBatchFilterSubmit_settled r p).loadingOverlayDisplay = "none" ∧
    (handleBatchFilterSubmit_settled r p).monitor.globalProgressInterval = none ∧
    liveIntervals (handleBatchFilterSubmit_settled r p).monitor = 0 ∧
    (handleBatchFilterSubmit_settled r p).monitor = (tryCatch r p).monitor ∧
    (∀ (q : Page) (message : String), q.monitor.Consistent →
      (finallyBlock (catchBlock message q)).loadingOverlayDisplay = "none" ∧
      (finallyBlock (catchBlock message q)).monitor.globalProgressInterval = none ∧
      liveIntervals (finallyBlock (catchBlock message q)).monitor = 0 ∧
      (finallyBlock (catchBlock message q)).monitor = (catchBlock message q).monitor) := by
  have key : ∀ (q : Page) (message kind : String) (m : MonitorState), q.monitor.Consistent →
      m = stopGlobalProgressMonitoring (showAlert message kind q).monitor →
      (stopGlobalProgressMonitoring m).globalProgressInterval = none ∧
      liveIntervals (stopGlobalProgressMonitoring m) = 0 ∧
      stopGlobalProgressMonitoring m = m := by
    intro q message kind m hq hm
    have h1 := stop_stops (showAlert_consistent message kind hq)
    subst hm
    rw [stop_stop]
    exact ⟨h1.1, by rw [liveIntervals, h1.2]; rfl, rfl⟩
  refine ⟨finallyBlock_overlay _, ?_, ?_, ?_, ?_⟩
  · obtain ⟨message, kind, hm⟩ := tryCatch_monitor r p
    exact (key p message kind _ hc hm).1
  · obtain ⟨message, kind, hm⟩ := tryCatch_monitor r p
    exact (key p message kind _ hc hm).2.1
  · obtain ⟨message, kind, hm⟩ := tryCatch_monitor r p
    exact (key p message kind _ hc hm).2.2
  · intro q message hq
    have h := key q message "danger" _ hq (catchBlock_monitor message q)
    exact ⟨finallyBlock_overlay _, h.1, h.2.1, h.2.2⟩

/-- Witness for C12: a submission that succeeds while the monitor is running. -/
theorem cleanup_on_every_exit_witness :
    (delayedStartFires (handleBatchFilterSubmit_begin sampleForm sampleFilters ["f1"] ""
      Page.initial)).monitor.globalProgressInterval = some 2 ∧
    (handleBatchFilterSubmit_settled (.okBody true (some "完成") currentSample)
      (delayedStartFires (handleBatchFilterSubmit_begin sampleForm sampleFilters ["f1"] ""
        Page.initial))).monitor.globalProgressInterval = none :=
  ⟨by decide,
   (cleanup_on_every_exit
      (delayedStartFires (handleBatchFilterSubmit_begin sampleForm sampleFilters ["f1"] ""
        Page.initial))
      (.okBody true (some "完成") currentSample)
      (consistent_start (consistent_apply .otherTimer (consistent_initial "" "")))).2.1⟩

/-! ## The delayed start is never cancelled (C20) -/

theorem begin_consistent (f : FilterForm) (availableFilters : List (String × FilterDef))
    (selectedFiles : List String) (minMatchMonths : String) {p : Page}
    (h : p.monitor.Consistent) :
    (handleBatchFilterSubmit_begin f availableFilters selectedFiles minMatchMonths
      p).monitor.Consistent := by
  obtain ⟨hpos, hfresh, hcase⟩ := h
  exact ⟨Nat.succ_pos _, fun i hi => Nat.lt_succ_of_lt (hfresh i hi), hcase⟩

theorem settled_consistent (r : BatchResponse) {p : Page} (h : p.monitor.Consistent) :
    (handleBatchFilterSubmit_settled r p).monitor.Consistent := by
  obtain ⟨message, kind, hm⟩ := tryCatch_monitor r p
  rw [handleBatchFilterSubmit_settled, finallyBlock_monitor, hm]
  exact consistent_stop (consistent_stop (showAlert_consistent message kind h))

theorem settled_pendingStarts (r : BatchResponse) (p : Page) :
    (handleBatchFilterSubmit_settled r p).pendingStarts = p.pendingStarts := by
  cases r with
  | rejected m => rfl
  | invalidBody m => rfl
  | notOk status detail => rfl
  | okBody success message result => cases success <;> rfl

theorem cleanup_free (r : BatchResponse) {p : Page} (h : p.monitor.Consistent) :
    (handleBatchFilterSubmit_settled r p).monitor.globalProgressInterval = none ∧
    (handleBatchFilterSubmit_settled r p).monitor.intervals = [] := by
  obtain ⟨message, kind, hm⟩ := tryCatch_monitor r p
  rw [handleBatchFilterSubmit_settled, finallyBlock_monitor, hm]
  exact stop_stops (consistent_stop (showAlert_consistent message kind h))

theorem start_running {s : MonitorState} (h : s.Consistent) :
    ∃ k, (startGlobalProgressMonitoring s).globalProgressInterval = some k ∧
      (startGlobalProgressMonitoring s).intervals = [k] := by
  obtain ⟨_, _, hcase⟩ := consistent_start h
  rcases hcase with ⟨hnone, _⟩ | ⟨k, _, hsome, hone⟩
  · have hv := start_view h
    have hset := congrArg MonitorView.handleSet hv
    simp [MonitorState.view, hnone] at hset
  · exact ⟨k, hsome, hone⟩

theorem keepsRunning_apply (e : MonitorEvent) (s : MonitorState) (h : e.keepsRunning = true) :
    (e.apply s).globalProgressInterval = s.globalProgressInterval ∧
    (e.apply s).intervals = s.intervals := by
  cases e with
  | start => cases h
  | stop => cases h
  | tick id =>
    simp only [MonitorEvent.apply]
    split <;> exact ⟨rfl, rfl⟩
  | otherTimer => exact ⟨rfl, rfl⟩
  | settle run o =>
    cases o with
    | failed =>
      simp only [MonitorEvent.apply, updateProgressDisplay, pollFailed]
      split
      · exact ⟨rfl, rfl⟩
      · split <;> exact ⟨rfl, rfl⟩
    | snapshot snap =>
      have hp : snap.is_processing = true := by
        simpa [MonitorEvent.keepsRunning, PollOutcome.isFailure, PollOutcome.isProcessing]
          using h
      simp [MonitorEvent.apply, updateProgressDisplay, hp]

theorem keepsRunning_runEvents (evs : List MonitorEvent) :
    ∀ (s : MonitorState), (∀ e ∈ evs, e.keepsRunning = true) →
      (runEvents evs s).globalProgressInterval = s.globalProgressInterval ∧
      (runEvents evs s).intervals = s.intervals := by
  induction evs with
  | nil => intro s _; exact ⟨rfl, rfl⟩
  | cons e rest ih =>
    intro s h
    have he := keepsRunning_apply e s (h e (List.mem_cons_self _ _))
    have hr := ih (e.apply s) (fun x hx => h x (List.mem_cons_of_mem _ hx))
    exact ⟨hr.1.trans he.1, hr.2.trans he.2⟩

/-- C20: the 500 ms timer set by `handleBatchFilterSubmit` is still pending when the handler has
completed (the cleanup stops the monitor and hides the overlay but cancels no timer); when the
timer fires afterwards, whatever monitor events happened in between, the monitor is started:
the handle is not `null` and one interval is live, and this stays so under ticks, failed polls
and polls with `is_processing = true`, until a poll with `is_processing = false` sets the handle
to `null`. -/
theorem delayed_start_outlives_cleanup (f : FilterForm)
    (availableFilters : List (String × FilterDef)) (selectedFiles : List String)
    (minMatchMonths : String) (r : BatchResponse) (between : List MonitorEvent) (p : Page)
    (hc : p.monitor.Consistent) :
    (afterCleanup f availableFilters selectedFiles minMatchMonths r p).pendingStarts
      = p.pendingStarts + 1 ∧
    (afterCleanup f availableFilters selectedFiles minMatchMonths r
      p).monitor.globalProgressInterval = none ∧
    (afterCleanup f availableFilters selectedFiles minMatchMonths r p).loadingOverlayDisplay
      = "none" ∧
    (lateStart f availableFilters selectedFiles minMatchMonths r between
      p).monitor.globalProgressInterval ≠ none ∧
    liveIntervals (lateStart f availableFilters selectedFiles minMatchMonths r between
      p).monitor = 1 ∧
    (∀ later : List MonitorEvent, (∀ e ∈ later, e.keepsRunning = true) →
      (runEvents later (lateStart f availableFilters selectedFiles minMatchMonths r between
        p).monitor).globalProgressInterval ≠ none ∧
      liveIntervals (runEvents later (lateStart f availableFilters selectedFiles minMatchMonths
        r between p).monitor) = 1) ∧
    (∀ (later : List MonitorEvent) (run : Nat) (snap : ProgressSnapshot),
      (∀ e ∈ later, e.keepsRunning = true) → snap.is_processing = false →
      (updateProgressDisplay run (.snapshot snap)
        (runEvents later (lateStart f availableFilters selectedFiles minMatchMonths r between
          p).monitor)).globalProgressInterval = none) := by
  have hb := begin_consistent f availableFilters selectedFiles minMatchMonths hc
  have hs : (afterCleanup f availableFilters selectedFiles minMatchMonths r
      p).monitor.Consistent := settled_consistent r hb
  have hpend : (afterCleanup f availableFilters selectedFiles minMatchMonths r p).pendingStarts
      = p.pendingStarts + 1 := by
    rw [afterCleanup, settled_pendingStarts]; rfl
  have hclean := cleanup_free r hb
  have hbetween := consistent_runEvents between hs
  have hlate : (lateStart f availableFilters selectedFiles minMatchMonths r between p).monitor
      = startGlobalProgressMonitoring (runEvents between
          (afterCleanup f availableFilters selectedFiles minMatchMonths r p).monitor) := by
    simp only [lateStart, delayedStartFires, hpend]
    simp
  obtain ⟨k, hk, hone⟩ := start_running hbetween
  rw [← hlate] at hk hone
  have hlateC : (lateStart f availableFilters selectedFiles minMatchMonths r between
      p).monitor.Consistent := by
    rw [hlate]; exact consistent_start hbetween
  refine ⟨hpend, hclean.1, finallyBlock_overlay _, ?_, ?_, ?_, ?_⟩
  · rw [hk]; exact fun h => Option.noConfusion h
  · rw [liveIntervals, hone]; rfl
  · intro later hlater
    have hkeep := keepsRunning_runEvents later
      (lateStart f availableFilters selectedFiles minMatchMonths r between p).monitor hlater
    rw [liveIntervals, hkeep.1, hkeep.2, hk, hone]
    exact ⟨fun h => Option.noConfusion h, rfl⟩
  · intro later run snap hlater hsnap
    rw [update_not_processing run snap _ hsnap]
    have hcons : ({ runEvents later (lateStart f availableFilters selectedFiles minMatchMonths r
        between p).monitor with
        inFlight := (runEvents later (lateStart f availableFilters selectedFiles minMatchMonths
          r between p).monitor).inFlight.erase run } : MonitorState).Consistent :=
      consistent_runEvents later hlateC
    exact (stop_stops hcons).1

/-- Witness for C20: the submission fails with status 500 before the timer fires. -/
theorem delayed_start_outlives_cleanup_witness :
    (afterCleanup sampleForm sampleFilters ["f1"] "" (.notOk 500 (some "disk full"))
      Page.initial).monitor.globalProgressInterval = none ∧
    (lateStart sampleForm sampleFilters ["f1"] "" (.notOk 500 (some "disk full")) []
      Page.initial).monitor.globalProgressInterval ≠ none :=
  ⟨by decide,
   (delayed_start_outlives_cleanup sampleForm sampleFilters ["f1"] ""
      (.notOk 500 (some "disk full")) [] Page.initial (consistent_initial "" "")).2.2.2.1⟩

/-! ## Upload validation (C13) -/

theorem dot_append_inj (x y : String) : "." ++ x = "." ++ y ↔ x = y := by
  constructor
  · intro h
    have hd := congrArg String.data h
    rw [String.data_append, String.data_append] at hd
    exact String.ext (List.append_cancel_left hd)
  · intro h; rw [h]

theorem extension_allowed_iff (file : UploadFile) :
    fileExtension file.name ∈ allowedTypes ↔ ¬ UnsupportedType file := by
  have hzip : (".zip" : String) = "." ++ "zip" := by decide
  have hxlsx : (".xlsx" : String) = "." ++ "xlsx" := by decide
  simp only [allowedTypes, List.mem_cons, List.mem_singleton, List.not_mem_nil, or_false,
    fileExtension, UnsupportedType]
  rw [hzip, hxlsx, dot_append_inj, dot_append_inj]
  tauto

theorem oversized_iff (file : UploadFile) : file.size > maxFileSize ↔ Oversized file :=
  Iff.rfl

theorem includes_middle (a t b : String) : includes (a ++ t ++ b) t = true := by
  simp only [includes, List.any_eq_true, String.data_append, List.mem_tails]
  refine ⟨t.data ++ b.data, ?_, ?_⟩
  · rw [List.append_assoc]
    exact List.suffix_append _ _
  · rw [List.isPrefixOf_iff_prefix]
    exact List.prefix_append _ _

theorem showAlert_requests (message kind : String) (p : Page) :
    (showAlert message kind p).requests = p.requests := rfl

theorem showAlert_alertContainer (message kind : String) (p : Page) :
    (showAlert message kind p).alertContainer = [⟨message, kind⟩] := rfl

theorem uploadFile_rejected (file : UploadFile) (p : Page)
    (h : UnsupportedType file ∨ Oversized file) :
    (uploadFile (some file) p).requests = p.requests ∧
    ∃ a, (uploadFile (some file) p).alertContainer = [a] ∧ a.kind = "danger" := by
  unfold uploadFile
  by_cases hext : fileExtension file.name ∈ allowedTypes
  · have hsize : file.size > maxFileSize := by
      rcases h with h | h
      · exact absurd h ((extension_allowed_iff file).mp hext)
      · exact h
    simp only [hext, not_true_eq_false, if_false, hsize, if_true]
    exact ⟨rfl, _, rfl, rfl⟩
  · simp only [hext, not_false_eq_true, if_true]
    exact ⟨rfl, _, rfl, rfl⟩

theorem uploadFile_accepted (file : UploadFile) (p : Page) (ht : ¬ UnsupportedType file)
    (hs : ¬ Oversized file) :
    (uploadFile (some file) p).requests = p.requests ++ [Request.upload file.name] := by
  have hext : fileExtension file.name ∈ allowedTypes := (extension_allowed_iff file).mpr ht
  have hsize : ¬ file.size > maxFileSize := hs
  simp only [uploadFile, hext, not_true_eq_false, if_false, hsize]

theorem firstRejection_none (files : List UploadFile)
    (h : ∀ file ∈ files, ¬ UnsupportedType file ∧ ¬ Oversized file) :
    firstRejection files = none := by
  induction files with
  | nil => rfl
  | cons file rest ih =>
    have hf := h file (List.mem_cons_self _ _)
    have hext : fileExtension file.name ∈ allowedTypes := (extension_allowed_iff file).mpr hf.1
    have hsize : ¬ file.size > maxFileSize := hf.2
    simp only [firstRejection, hext, not_true_eq_false, if_false, hsize]
    exact ih (fun g hg => h g (List.mem_cons_of_mem _ hg))

theorem firstRejection_some (files : List UploadFile)
    (h : ∃ file ∈ files, UnsupportedType file ∨ Oversized file) :
    ∃ pre file post a, files = pre ++ file :: post ∧
      (∀ g ∈ pre, ¬ UnsupportedType g ∧ ¬ Oversized g) ∧
      (UnsupportedType file ∨ Oversized file) ∧
      firstRejection files = some a ∧ a.kind = "danger" ∧
      (a.message = "文件 " ++ file.name ++ " 格式不支持，仅支持ZIP和XLSX文件" ∨
        a.message = "文件 " ++ file.name ++ " 大小超过100MB") := by
  induction files with
  | nil =>
    obtain ⟨file, hmem, _⟩ := h
    cases hmem
  | cons file rest ih =>
    by_cases hext : fileExtension file.name ∈ allowedTypes
    · by_cases hsize : file.size > maxFileSize
      · refine ⟨[], file, rest, ⟨"文件 " ++ file.name ++ " 大小超过100MB", "danger"⟩, rfl, ?_,
          Or.inr hsize, ?_, rfl, Or.inr rfl⟩
        · intro g hg; cases hg
        · simp only [firstRejection, hext, not_true_eq_false, if_false, hsize, if_true]
      · have hok : ¬ UnsupportedType file ∧ ¬ Oversized file :=
          ⟨(extension_allowed_iff file).mp hext, hsize⟩
        have hrest : ∃ g ∈ rest, UnsupportedType g ∨ Oversized g := by
          obtain ⟨g, hmem, hg⟩ := h
          rcases List.mem_cons.mp hmem with rfl | hmem
          · rcases hg with hg | hg
            · exact absurd hg hok.1
            · exact absurd hg hok.2
          · exact ⟨g, hmem, hg⟩
        obtain ⟨pre, bad, post, a, hsplit, hpre, hbad, hrej, hkind, hmsg⟩ := ih hrest
        refine ⟨file :: pre, bad, post, a, by rw [hsplit]; rfl, ?_, hbad, ?_, hkind, hmsg⟩
        · intro g hg
          rcases List.mem_cons.mp hg with rfl | hg
          · exact hok
          · exact hpre g hg
        · simp only [firstRejection, hext, not_true_eq_false, if_false, hsize]
          exact hrej
    · have hbad : UnsupportedType file := by
        by_contra hn
        exact hext ((extension_allowed_iff file).mpr hn)
      refine ⟨[], file, rest,
        ⟨"文件 " ++ file.name ++ " 格式不支持，仅支持ZIP和XLSX文件", "danger"⟩, rfl, ?_,
        Or.inl hbad, ?_, rfl, Or.inl rfl⟩
      · intro g hg; cases hg
      · simp only [firstRejection, hext, not_false_eq_true, if_true]

/-- C13: with "unsupported" and "oversized" as the specification words them, `uploadFile` on
such a file shows a danger alert and sends no request (and sends the upload request for any
other file); `uploadBatchFiles` on a batch that contains such a file shows a danger alert that
names the first such file of the batch and sends no request (and sends the batch request when
the batch is non-empty and has no such file). -/
theorem invalid_files_send_no_request (p : Page) :
    (∀ file : UploadFile, UnsupportedType file ∨ Oversized file →
      (uploadFile (some file) p).requests = p.requests ∧
      ∃ a, (uploadFile (some file) p).alertContainer = [a] ∧ a.kind = "danger") ∧
    (∀ file : UploadFile, ¬ UnsupportedType file → ¬ Oversized file →
      (uploadFile (some file) p).requests = p.requests ++ [Request.upload file.name]) ∧
    (∀ files : List UploadFile, (∃ file ∈ files, UnsupportedType file ∨ Oversized file) →
      (uploadBatchFiles files p).requests = p.requests ∧
      ∃ pre file post, files = pre ++ file :: post ∧
        (∀ g ∈ pre, ¬ UnsupportedType g ∧ ¬ Oversized g) ∧
        (UnsupportedType file ∨ Oversized file) ∧
        ∃ a, (uploadBatchFiles files p).alertContainer = [a] ∧ a.kind = "danger" ∧
          includes a.message file.name = true) ∧
    (∀ files : List UploadFile, files ≠ [] →
      (∀ file ∈ files, ¬ UnsupportedType file ∧ ¬ Oversized file) →
      (uploadBatchFiles files p).requests
        = p.requests ++ [Request.uploadBatch (files.map (fun file => file.name))]) := by
  refine ⟨fun file h => uploadFile_rejected file p h,
    fun file ht hs => uploadFile_accepted file p ht hs, ?_, ?_⟩
  · intro files h
    obtain ⟨pre, file, post, a, hsplit, hpre, hbad, hrej, hkind, hmsg⟩ :=
      firstRejection_some files h
    have hrun : uploadBatchFiles files p = showAlert a.message a.kind p := by
      cases files with
      | nil => cases pre <;> cases hsplit
      | cons g rest => simp only [uploadBatchFiles, hrej]
    rw [hrun]
    refine ⟨rfl, pre, file, post, hsplit, hpre, hbad, ⟨a.message, a.kind⟩, rfl, hkind, ?_⟩
    rcases hmsg with hmsg | hmsg <;> rw [hmsg] <;> exact includes_middle _ _ _
  · intro files hne hall
    have hnone := firstRejection_none files hall
    cases files with
    | nil => exact absurd rfl hne
    | cons g rest =>
      simp only [uploadBatchFiles, hnone]
      rfl

/-- Witness for C13: in a batch of two valid files, a text file and an oversized file, the alert
names the text file and nothing is sent. -/
theorem invalid_files_send_no_request_witness :
    (∃ file ∈ mixedBatch, UnsupportedType file ∨ Oversized file) ∧
    (uploadBatchFiles mixedBatch Page.initial).requests = [] ∧
    (uploadBatchFiles mixedBatch Page.initial).alertContainer
      = [⟨"文件 notes.txt 格式不支持，仅支持ZIP和XLSX文件", "danger"⟩] :=
  ⟨⟨⟨"notes.txt", 10⟩, by decide, Or.inl (by decide)⟩,
   ((invalid_files_send_no_request Page.initial).2.2.1 mixedBatch
      ⟨⟨"notes.txt", 10⟩, by decide, Or.inl (by decide)⟩).1,
   by decide⟩

/-! ## Partial failure of a batch upload (C14) -/

/-- C14, evaluated on the code: after the response `{success: true, success_files: ["a.zip"],
failed_files: [{filename: "b.zip", error: "bad"}]}` the alert container holds only the alert
with the per-file breakdown, which does not contain the success count; the summary alert was
replaced by it.  The file list is reloaded and no danger alert is shown.  The same holds for
every response with a non-empty `failed_files`. -/
theorem partial_failure_alert_replaces_summary :
    (uploadBatchFiles_settled 1 partialResponse Page.initial).alertContainer
      = [⟨"失败文件详情：<br>b.zip: bad", "warning"⟩] ∧
    includes "失败文件详情：<br>b.zip: bad" "成功 1 个" = false ∧
    uploadSummary 1 1 = "批量上传完成：成功 1 个，失败 1 个" ∧
    (uploadBatchFiles_settled 1 partialResponse Page.initial).requests = [Request.files] ∧
    ∀ (progressInterval : Nat) (message : Option String) (success_files : List String)
      (failed : FailedFile) (others : List FailedFile) (p : Page),
      (uploadBatchFiles_settled progressInterval
        (.okBody true message success_files (failed :: others)) p).alertContainer
        = [⟨failedDetailsMessage (failed :: others), "warning"⟩] := by
  refine ⟨by decide, by decide, by decide, by decide, ?_⟩
  intro progressInterval message success_files failed others p
  simp [uploadBatchFiles_settled, uploadSuccessBranch, showAlert]

/-! ## The close signal after brief tab switches (C15) -/

/-- C15, evaluated on the code: with a hide at 0 s, a show at 1 s and a hide at 2 s, the timer
of the first hide fires at 3 s, finds the page hidden and sends the close signal, although the
page was visible at 1.5 s and so was not hidden during the 3 s before; a page hidden from 0 s on
gets the signal at 3 s, and a page shown again at 1 s gets none. -/
theorem close_signal_after_brief_switches :
    (lifecycleUntil briefSwitches 3000).closeSignals = [3000] ∧
    hiddenAt briefSwitches 1500 = false ∧
    continuouslyHidden briefSwitches 3000 3000 = false ∧
    (lifecycleUntil [(0, true)] 3000).closeSignals = [3000] ∧
    continuouslyHidden [(0, true)] 3000 3000 = true ∧
    (lifecycleUntil [(0, true), (1000, false)] 3000).closeSignals = [] := by
  decide

/-! ## The result of a probe (C16) -/

theorem head_ne_of_ne (a b : String) (h : a.data.head? ≠ b.data.head?) : a ≠ b := by
  intro hab
  exact h (by rw [hab])

theorem statusMessage_head (status : Nat) : (statusMessage status).data.head? = some '服' := by
  have hd : ("服务器响应异常 (" : String).data
      = ['服', '务', '器', '响', '应', '异', '常', ' ', '('] := rfl
  simp [statusMessage, String.data_append, hd]

theorem updateLoadingStatus_none (text : String) (s : ProbeState) (h : s.loadingStatus = none) :
    (updateLoadingStatus text s).loadingStatus = none := by
  simp [updateLoadingStatus, h]

theorem updateLoadingStatus_some (text old : String) (s : ProbeState)
    (h : s.loadingStatus = some old) :
    (updateLoadingStatus text s).loadingStatus = some text := by
  simp [updateLoadingStatus, h]

theorem updateLoadingStatus_frame (text : String) (s : ProbeState) :
    (updateLoadingStatus text s).isServerReady = s.isServerReady ∧
    (updateLoadingStatus text s).connectionCheckInterval = s.connectionCheckInterval ∧
    (updateLoadingStatus text s).checkIntervals = s.checkIntervals := by
  unfold updateLoadingStatus
  cases s.loadingStatus <;> exact ⟨rfl, rfl, rfl⟩

theorem probe_failure (o : ProbeOutcome) (s : ProbeState)
    (h : ∀ status, o = .response status → responseOk status = false) :
    checkServerConnection_settled o s
      = (false, updateLoadingStatus (failureMessage o)
          { s with probesInFlight := s.probesInFlight - 1 }) := by
  cases o with
  | response status =>
    simp [checkServerConnection_settled, h status rfl, failureMessage]
  | aborted => rfl
  | failed => rfl

/-- C16 as stated fails: the first probe runs before `showServerLoadingMessage` has created the
status element, so a timeout returns `false` and sets no status text. -/
theorem first_probe_sets_no_status :
    (checkServerConnection_settled .aborted
      (checkServerConnection_begin ProbeState.initial)).1 = false ∧
    (checkServerConnection_settled .aborted
      (checkServerConnection_begin ProbeState.initial)).2.loadingStatus = none := by
  decide

/-- C16, amended: `checkServerConnection` returns `true` exactly when the response is OK; on
every failure (non-OK status, timeout abort, any other error) it returns `false`, leaves
`isServerReady` and the retry interval handle unchanged and, when the status element exists,
sets its text to the message of the failure class (when the element does not exist no text is
set); the timeout message differs from the generic one and from every non-OK-status one. -/
theorem probe_result (o : ProbeOutcome) (s : ProbeState) :
    ((checkServerConnection_settled o s).1 = true ↔
      ∃ status, o = .response status ∧ responseOk status = true) ∧
    ((checkServerConnection_settled o s).1 = false →
      (checkServerConnection_settled o s).2.isServerReady = s.isServerReady ∧
      (checkServerConnection_settled o s).2.connectionCheckInterval
        = s.connectionCheckInterval ∧
      (checkServerConnection_settled o s).2.checkIntervals = s.checkIntervals ∧
      (∀ old, s.loadingStatus = some old →
        (checkServerConnection_settled o s).2.loadingStatus = some (failureMessage o)) ∧
      (s.loadingStatus = none → (checkServerConnection_settled o s).2.loadingStatus = none)) ∧
    timeoutMessage ≠ waitingMessage ∧
    (∀ status, timeoutMessage ≠ statusMessage status) ∧
    (∀ status, waitingMessage ≠ statusMessage status) := by
  have hok : ∀ status, responseOk status = true →
      (checkServerConnection_settled (.response status) s).1 = true := by
    intro status h
    simp [checkServerConnection_settled, h]
  refine ⟨?_, ?_, by decide, ?_, ?_⟩
  · constructor
    · intro h
      cases o with
      | response status =>
        cases hr : responseOk status with
        | true => exact ⟨status, rfl, hr⟩
        | false =>
          rw [probe_failure _ s (by intro st hst; cases hst; exact hr)] at h
          cases h
      | aborted => rw [probe_failure _ s (by intro st hst; cases hst)] at h; cases h
      | failed => rw [probe_failure _ s (by intro st hst; cases hst)] at h; cases h
    · rintro ⟨status, rfl, h⟩
      exact hok status h
  · intro hfalse
    have hfail : ∀ status, o = .response status → responseOk status = false := by
      intro status ho
      subst ho
      cases hr : responseOk status with
      | true => rw [hok status hr] at hfalse; cases hfalse
      | false => rfl
    rw [probe_failure o s hfail]
    have hframe := updateLoadingStatus_frame (failureMessage o)
      { s with probesInFlight := s.probesInFlight - 1 }
    refine ⟨hframe.1, hframe.2.1, hframe.2.2, ?_, ?_⟩
    · intro old hold
      exact updateLoadingStatus_some _ old _ hold
    · intro hnone
      exact updateLoadingStatus_none _ _ hnone
  · intro status
    apply head_ne_of_ne
    rw [statusMessage_head]
    decide
  · intro status
    apply head_ne_of_ne
    rw [statusMessage_head]
    decide

/-- Witness for C16: a timeout while the status element is shown. -/
theorem probe_result_witness :
    (checkServerConnection_settled .aborted
      (checkServerConnection_begin (showServerLoadingMessage ProbeState.initial))).1 = false ∧
    (checkServerConnection_settled .aborted
      (checkServerConnection_begin (showServerLoadingMessage
        ProbeState.initial))).2.loadingStatus = some "连接超时，继续尝试..." :=
  ⟨by decide,
   ((probe_result .aborted
      (checkServerConnection_begin (showServerLoadingMessage ProbeState.initial))).2.1
        (by decide)).2.2.2.1 "正在连接服务器..." (by decide)⟩

/-! ## The single-file branch is never taken (C21) -/

theorem deleteFile_settled_selectedFileId (fileId : String) (success : Bool)
    (message : Option String) (a : App) (h : a.selectedFileId = none) :
    (deleteFile_settled fileId success message a).selectedFileId = none := by
  unfold deleteFile_settled
  cases success with
  | false => simpa using h
  | true => simp [h]

theorem handleFilterSubmit_selectedFileId (f : FilterForm)
    (availableFilters : List (String × FilterDef)) (minMatchMonths : String) (a : App) :
    (handleFilterSubmit f availableFilters minMatchMonths a).2.selectedFileId
      = a.selectedFileId := by
  unfold handleFilterSubmit
  simp only
  split
  · rfl
  · split <;> rfl

theorem apply_selectedFileId (e : AppEvent) (a : App) (h : a.selectedFileId = none) :
    (e.apply a).selectedFileId = none := by
  cases e with
  | updateFileSelection checked => exact h
  | deleteSelectedSettled successCount failCount => exact h
  | deleteFileSettled fileId success message =>
    exact deleteFile_settled_selectedFileId fileId success message a h
  | filterSubmit f availableFilters minMatchMonths =>
    exact (handleFilterSubmit_selectedFileId f availableFilters minMatchMonths a).trans h
  | other change => exact h

theorem runApp_selectedFileId (evs : List AppEvent) :
    ∀ (a : App), a.selectedFileId = none → (runApp evs a).selectedFileId = none := by
  induction evs with
  | nil => intro a h; exact h
  | cons e rest ih => intro a h; exact ih (e.apply a) (apply_selectedFileId e a h)

/-- C21: after every sequence of events from the initial state `selectedFileId` is `null`; so
`handleFilterSubmit` never takes the single-file branch and sends no single-file request: with
a non-empty `selectedFiles` it runs the batch submission (the batch request is sent), and
otherwise it shows the warning "请先选择要筛选的文件". -/
theorem single_file_branch_unreachable (evs : List AppEvent) (f : FilterForm)
    (availableFilters : List (String × FilterDef)) (minMatchMonths : String) :
    (runApp evs App.initial).selectedFileId = none ∧
    (handleFilterSubmit f availableFilters minMatchMonths (runApp evs App.initial)).1
      ≠ .single ∧
    ((runApp evs App.initial).selectedFiles ≠ [] →
      (handleFilterSubmit f availableFilters minMatchMonths (runApp evs App.initial)).1
        = .batch ∧
      (handleFilterSubmit f availableFilters minMatchMonths
        (runApp evs App.initial)).2.page.requests
        = (runApp evs App.initial).page.requests ++
          [Request.filterBatch (runApp evs App.initial).selectedFiles
            (buildFilterConfig f availableFilters) getSelectedDisplayFields
            (if minMatchMonths = "" then "3" else minMatchMonths)]) ∧
    ((runApp evs App.initial).selectedFiles = [] →
      (handleFilterSubmit f availableFilters minMatchMonths (runApp evs App.initial)).1
        = .warning ∧
      (handleFilterSubmit f availableFilters minMatchMonths
        (runApp evs App.initial)).2.page.alertContainer
        = [⟨"请先选择要筛选的文件", "warning"⟩]) ∧
    (handleFilterSubmit f availableFilters minMatchMonths
      (runApp evs App.initial)).2.singleRequests = (runApp evs App.initial).singleRequests := by
  have hnull : (runApp evs App.initial).selectedFileId = none :=
    runApp_selectedFileId evs App.initial rfl
  generalize runApp evs App.initial = a at hnull ⊢
  refine ⟨hnull, ?_, ?_, ?_, ?_⟩
  · unfold handleFilterSubmit
    simp only [hnull, truthyStr]
    split <;> simp
  · intro hne
    have hlen : a.selectedFiles.length > 0 := List.length_pos.mpr hne
    simp only [handleFilterSubmit, hlen, if_true]
    exact ⟨trivial, rfl⟩
  · intro hnil
    simp only [handleFilterSubmit, hnil, hnull, truthyStr]
    exact ⟨rfl, rfl⟩
  · unfold handleFilterSubmit
    simp only [hnull, truthyStr]
    split <;> simp

/-- Witness for C21: one file is checked in the list, the form is submitted. -/
theorem single_file_branch_unreachable_witness :
    (runApp [.updateFileSelection ["f1"], .deleteFileSettled "f2" true none]
      App.initial).selectedFiles ≠ [] ∧
    (handleFilterSubmit sampleForm sampleFilters ""
      (runApp [.updateFileSelection ["f1"], .deleteFileSettled "f2" true none]
        App.initial)).1 = .batch ∧
    (handleFilterSubmit sampleForm sampleFilters "" (runApp [] App.initial)).1 = .warning :=
  ⟨by decide,
   ((single_file_branch_unreachable [.updateFileSelection ["f1"],
      .deleteFileSettled "f2" true none] sampleForm sampleFilters "").2.2.1 (by decide)).1,
   ((single_file_branch_unreachable [] sampleForm sampleFilters "").2.2.2.1 (by decide)).1⟩

/-! ## Every OK probe initialises the app (C22) -/

theorem settled_ignores_isServerReady (o : ProbeOutcome) (p : ProbeState) (b : Bool) :
    (checkServerConnection_settled o { p with isServerReady := b }).1
      = (checkServerConnection_settled o p).1 ∧
    (checkServerConnection_settled o { p with isServerReady := b }).2.pendingInits
      = (checkServerConnection_settled o p).2.pendingInits := by
  cases o with
  | response status =>
    cases hr : responseOk status <;>
      cases hl : p.loadingStatus <;> cases hc : p.connectionCheckInterval <;>
      simp [checkServerConnection_settled, updateLoadingStatus, hr, hl, hc]
  | aborted =>
    cases hl : p.loadingStatus <;> simp [checkServerConnection_settled, updateLoadingStatus, hl]
  | failed =>
    cases hl : p.loadingStatus <;> simp [checkServerConnection_settled, updateLoadingStatus, hl]

theorem settled_counts (o : ProbeOutcome) (p : ProbeState) :
    (checkServerConnection_settled o p).2.initializations = p.initializations ∧
    (checkServerConnection_settled o p).2.pendingInits
      = p.pendingInits + (if (StartupEvent.settles o).settlesOk then 1 else 0) := by
  cases o with
  | response status =>
    cases hr : responseOk status <;>
      cases hl : p.loadingStatus <;> cases hc : p.connectionCheckInterval <;>
      simp [checkServerConnection_settled, updateLoadingStatus, StartupEvent.settlesOk, hr, hl,
        hc] <;>
      split <;> exact ⟨rfl, rfl⟩
  | aborted =>
    cases hl : p.loadingStatus <;>
      simp [checkServerConnection_settled, updateLoadingStatus, StartupEvent.settlesOk, hl]
  | failed =>
    cases hl : p.loadingStatus <;>
      simp [checkServerConnection_settled, updateLoadingStatus, StartupEvent.settlesOk, hl]

theorem begin_counts (p : ProbeState) :
    (checkServerConnection_begin p).initializations = p.initializations ∧
    (checkServerConnection_begin p).pendingInits = p.pendingInits := by
  unfold checkServerConnection_begin updateLoadingStatus
  cases p.loadingStatus <;> exact ⟨rfl, rfl⟩

theorem startupCallback_counts (ready : Bool) (intervalId : Nat) (p : ProbeState) :
    (startupCallback ready intervalId p).initializations = p.initializations ∧
    (startupCallback ready intervalId p).pendingInits = p.pendingInits := by
  unfold startupCallback showServerLoadingMessage
  cases ready <;> cases p.loadingStatus <;> exact ⟨rfl, rfl⟩

theorem addEventListener_clicks (target event handler : String) (a : AppSetup) :
    (addEventListener target event handler a).selectFileClickListeners
      = a.selectFileClickListeners := by
  unfold addEventListener
  split <;> rfl

theorem initializeEventListeners_clicks (a : AppSetup) :
    (initializeEventListeners a).selectFileClickListeners = a.selectFileClickListeners + 1 := by
  unfold initializeEventListeners
  simp only [addEventListener_clicks]

theorem initializeApp_clicks (a : AppSetup) :
    (initializeApp a).selectFileClickListeners = a.selectFileClickListeners + 1 := by
  simp only [initializeApp, initializeEventListeners_clicks]

theorem initTimer_counts (s : Startup) (h : s.probe.pendingInits ≠ 0) :
    (StartupEvent.initTimer.apply s).probe.initializations = s.probe.initializations + 1 ∧
    (StartupEvent.initTimer.apply s).probe.pendingInits = s.probe.pendingInits - 1 ∧
    (StartupEvent.initTimer.apply s).app.selectFileClickListeners
      = s.app.selectFileClickListeners + 1 := by
  simp only [StartupEvent.apply, h, if_false, initTimerFires, hideServerLoadingMessage,
    initializeApp_clicks]
  exact ⟨trivial, trivial, trivial⟩

theorem initTimer_idle (s : Startup) (h : s.probe.pendingInits = 0) :
    StartupEvent.initTimer.apply s = s := by
  simp [StartupEvent.apply, h]

/-- One event keeps the balance: the initialisations done and pending grow by one exactly at a
probe that settles OK, and each initialisation adds one click listener to `selectFileBtn`. -/
theorem apply_balance (e : StartupEvent) (s : Startup) :
    (e.apply s).probe.initializations + (e.apply s).probe.pendingInits
      = s.probe.initializations + s.probe.pendingInits + (if e.settlesOk then 1 else 0) ∧
    (e.apply s).app.selectFileClickListeners + s.probe.initializations
      = s.app.selectFileClickListeners + (e.apply s).probe.initializations := by
  cases e with
  | begins =>
    have h := begin_counts s.probe
    show (checkServerConnection_begin s.probe).initializations
        + (checkServerConnection_begin s.probe).pendingInits = _ ∧
      s.app.selectFileClickListeners + s.probe.initializations
        = s.app.selectFileClickListeners + (checkServerConnection_begin s.probe).initializations
    rw [h.1, h.2]
    exact ⟨rfl, rfl⟩
  | tick id =>
    have h := begin_counts s.probe
    by_cases hlive : id ∈ s.probe.checkIntervals
    · have happ : (StartupEvent.tick id).apply s
          = { s with probe := checkServerConnection_begin s.probe } := by
        simp [StartupEvent.apply, hlive]
      rw [happ]
      show (checkServerConnection_begin s.probe).initializations
          + (checkServerConnection_begin s.probe).pendingInits = _ ∧
        s.app.selectFileClickListeners + s.probe.initializations
          = s.app.selectFileClickListeners
            + (checkServerConnection_begin s.probe).initializations
      rw [h.1, h.2]
      exact ⟨rfl, rfl⟩
    · have happ : (StartupEvent.tick id).apply s = s := by
        simp [StartupEvent.apply, hlive]
      rw [happ]
      exact ⟨rfl, rfl⟩
  | settles o =>
    have h := settled_counts o s.probe
    show (checkServerConnection_settled o s.probe).2.initializations
        + (checkServerConnection_settled o s.probe).2.pendingInits = _ ∧
      s.app.selectFileClickListeners + s.probe.initializations
        = s.app.selectFileClickListeners
          + (checkServerConnection_settled o s.probe).2.initializations
    rw [h.1, h.2]
    exact ⟨by rw [Nat.add_assoc], rfl⟩
  | firstSettles o intervalId =>
    have h := settled_counts o s.probe
    have hc := startupCallback_counts (checkServerConnection_settled o s.probe).1 intervalId
      (checkServerConnection_settled o s.probe).2
    have hsame : (StartupEvent.firstSettles o intervalId).settlesOk
        = (StartupEvent.settles o).settlesOk := by
      cases o <;> rfl
    show (startupCallback (checkServerConnection_settled o s.probe).1 intervalId
          (checkServerConnection_settled o s.probe).2).initializations
        + (startupCallback (checkServerConnection_settled o s.probe).1 intervalId
          (checkServerConnection_settled o s.probe).2).pendingInits = _ ∧
      s.app.selectFileClickListeners + s.probe.initializations
        = s.app.selectFileClickListeners
          + (startupCallback (checkServerConnection_settled o s.probe).1 intervalId
              (checkServerConnection_settled o s.probe).2).initializations
    rw [hc.1, hc.2, h.1, h.2, hsame]
    exact ⟨by rw [Nat.add_assoc], rfl⟩
  | initTimer =>
    by_cases hp : s.probe.pendingInits = 0
    · rw [initTimer_idle s hp]
      exact ⟨rfl, rfl⟩
    · obtain ⟨h1, h2, h3⟩ := initTimer_counts s hp
      rw [h1, h2, h3]
      have hfalse : StartupEvent.initTimer.settlesOk = false := rfl
      rw [hfalse]
      simp only [Bool.false_eq_true, if_false]
      omega

theorem runStartup_balance (evs : List StartupEvent) :
    ∀ (s : Startup),
      (runStartup evs s).probe.initializations + (runStartup evs s).probe.pendingInits
        = s.probe.initializations + s.probe.pendingInits
          + evs.countP StartupEvent.settlesOk ∧
      (runStartup evs s).app.selectFileClickListeners + s.probe.initializations
        = s.app.selectFileClickListeners + (runStartup evs s).probe.initializations := by
  induction evs with
  | nil => intro s; simp [runStartup]
  | cons e rest ih =>
    intro s
    have h1 := apply_balance e s
    have h2 := ih (e.apply s)
    have hrun : runStartup (e :: rest) s = runStartup rest (e.apply s) := rfl
    rw [hrun, List.countP_cons]
    constructor
    · rw [h2.1, h1.1]; omega
    · have := h2.2
      have := h1.2
      omega

/-- C22: the value that `checkServerConnection` returns and the timers it sets do not depend on
`isServerReady`; every probe that settles with an OK response returns `true` and sets one more
500 ms timer; over every sequence of startup events the initialisations done and pending grow
by the number of probes that settled OK, and each initialisation registers one more click
listener on `selectFileBtn`; so when two probes are in flight and both settle OK, the two timers
run `initializeApp`, with `initializeEventListeners`, twice. -/
theorem every_ok_probe_initializes (s : Startup) (evs : List StartupEvent) :
    (∀ (o : ProbeOutcome) (p : ProbeState) (b : Bool),
      (checkServerConnection_settled o { p with isServerReady := b }).1
        = (checkServerConnection_settled o p).1 ∧
      (checkServerConnection_settled o { p with isServerReady := b }).2.pendingInits
        = (checkServerConnection_settled o p).2.pendingInits) ∧
    (∀ (p : ProbeState) (status : Nat), responseOk status = true →
      (checkServerConnection_settled (.response status) p).1 = true ∧
      (checkServerConnection_settled (.response status) p).2.pendingInits
        = p.pendingInits + 1) ∧
    (runStartup evs s).probe.initializations + (runStartup evs s).probe.pendingInits
      = s.probe.initializations + s.probe.pendingInits
        + evs.countP StartupEvent.settlesOk ∧
    (runStartup evs s).app.selectFileClickListeners + s.probe.initializations
      = s.app.selectFileClickListeners + (runStartup evs s).probe.initializations ∧
    (∀ a b : Nat, responseOk a = true → responseOk b = true →
      (runStartup [.begins, .begins] s).probe.probesInFlight = s.probe.probesInFlight + 2 ∧
      (runStartup [.begins, .begins, .settles (.response a), .settles (.response b),
        .initTimer, .initTimer] s).probe.initializations = s.probe.initializations + 2 ∧
      (runStartup [.begins, .begins, .settles (.response a), .settles (.response b),
        .initTimer, .initTimer] s).app.selectFileClickListeners
        = s.app.selectFileClickListeners + 2) := by
  refine ⟨settled_ignores_isServerReady, ?_, (runStartup_balance evs s).1,
    (runStartup_balance evs s).2, ?_⟩
  · intro p status hok
    have h := settled_counts (.response status) p
    refine ⟨by simp [checkServerConnection_settled, hok], ?_⟩
    rw [h.2]
    simp [StartupEvent.settlesOk, hok]
  · intro a b ha hb
    have hflight : (runStartup [.begins, .begins] s).probe.probesInFlight
        = s.probe.probesInFlight + 2 := by
      simp only [runStartup, List.foldl_cons, List.foldl_nil, StartupEvent.apply,
        checkServerConnection_begin, updateLoadingStatus]
    have hsplit : runStartup [.begins, .begins, .settles (.response a), .settles (.response b),
        .initTimer, .initTimer] s
        = StartupEvent.initTimer.apply (StartupEvent.initTimer.apply
            (runStartup [.begins, .begins, .settles (.response a), .settles (.response b)]
              s)) := rfl
    have hfour := runStartup_balance
      [.begins, .begins, .settles (.response a), .settles (.response b)] s
    have hcount : [StartupEvent.begins, .begins, .settles (.response a),
        .settles (.response b)].countP StartupEvent.settlesOk = 2 := by
      simp [List.countP_cons, StartupEvent.settlesOk, ha, hb]
    rw [hcount] at hfour
    have hsix := runStartup_balance [.begins, .begins, .settles (.response a),
      .settles (.response b), .initTimer, .initTimer] s
    have hcount6 : [StartupEvent.begins, .begins, .settles (.response a),
        .settles (.response b), .initTimer, .initTimer].countP StartupEvent.settlesOk = 2 := by
      simp [List.countP_cons, StartupEvent.settlesOk, ha, hb]
    rw [hcount6] at hsix
    have hfourInits : (runStartup [.begins, .begins, .settles (.response a),
        .settles (.response b)] s).probe.initializations = s.probe.initializations := by
      show (checkServerConnection_settled (.response b) (checkServerConnection_settled
        (.response a) (checkServerConnection_begin
          (checkServerConnection_begin s.probe))).2).2.initializations = _
      rw [(settled_counts _ _).1, (settled_counts _ _).1, (begin_counts _).1,
        (begin_counts _).1]
    have hfourPending : (runStartup [.begins, .begins, .settles (.response a),
        .settles (.response b)] s).probe.pendingInits = s.probe.pendingInits + 2 := by
      have := hfour.1
      omega
    obtain ⟨h51, h52, _⟩ := initTimer_counts
      (runStartup [.begins, .begins, .settles (.response a), .settles (.response b)] s)
      (by rw [hfourPending]; omega)
    obtain ⟨h61, _, _⟩ := initTimer_counts
      (StartupEvent.initTimer.apply
        (runStartup [.begins, .begins, .settles (.response a), .settles (.response b)] s))
      (by rw [h52, hfourPending]; omega)
    have hinits : (runStartup [.begins, .begins, .settles (.response a),
        .settles (.response b), .initTimer, .initTimer] s).probe.initializations
        = s.probe.initializations + 2 := by
      rw [hsplit, h61, h51, hfourInits]
    refine ⟨hflight, hinits, ?_⟩
    have := hsix.2
    omega

/-- Witness for C22: the server is down at first, then slow; two probes of the retry interval
are in flight at once and both get status 200. -/
theorem every_ok_probe_initializes_witness :
    (runStartup (slowStart.take 4) Startup.initial).probe.probesInFlight = 2 ∧
    (runStartup slowStart Startup.initial).probe.initializations = 2 ∧
    (runStartup slowStart Startup.initial).app.selectFileClickListeners = 2 ∧
    (runStartup [.begins, .begins, .settles (.response 200), .settles (.response 200),
      .initTimer, .initTimer] Startup.initial).probe.initializations
      = Startup.initial.probe.initializations + 2 :=
  ⟨by decide, by decide, by decide,
   ((every_ok_probe_initializes Startup.initial []).2.2.2.2 200 200 (by decide)
      (by decide)).2.1⟩

end DhiScreening
